import Mathlib

/-!
# Verification of the monthly CSM report core

Shallow embedding of the configuration-driven threshold evaluation,
multi-table synchronized write model, and report data assembly of the
`monthly_csm_report` repository (`src/app.py`, `src/ppt_generator.py`),
together with proofs that settle the frozen specification claims.

Numeric database columns are embedded as `Int` (integer columns) and
`ℚ` (float / `Decimal` / percentage columns); months are embedded as an
integer month index (month values are always normalized to the first day
of a month in the source, so a month is one integer).
-/

namespace CSMReport

/-! ## Threshold Evaluator (src/ppt_generator.py)

The classification ladders are written inline in `generate_presentation`.
`Tier` is the classification: one of the three rule keys or `Invalid`.
-/

/-- A classification: the color key chosen by the threshold ladder. -/
inductive Tier where
  | color1
  | color2
  | color3
  | invalid
deriving DecidableEq, Repr

/-- A 3-tier rule set, the parsed `Colour_Rules` mapping
`{"Color1": _, "Color2": _, "Color3": _}`. -/
structure Rules where
  color1 : ℚ
  color2 : ℚ
  color3 : ℚ
deriving DecidableEq, Repr

/-- Single-value threshold ladder of slide 2
(src/ppt_generator.py lines 321-328): check `Color1`, then `Color2`,
then `Color3` with `value >= cutoff`, else `Invalid`. -/
def colorKeySingle (v : ℚ) (r : Rules) : Tier :=
  if v ≥ r.color1 then .color1
  else if v ≥ r.color2 then .color2
  else if v ≥ r.color3 then .color3
  else .invalid

/-- Spec-side definition ("first tier whose cutoff the value meets or
exceeds"): scan an ordered list of (tier, cutoff) pairs and return the
first tier with `v ≥ cutoff`, else `Invalid`. -/
def firstMeets (v : ℚ) : List (Tier × ℚ) → Tier
  | [] => .invalid
  | (t, c) :: rest => if v ≥ c then t else firstMeets v rest

/-- The evaluation order of the ladder: `Color1`, `Color2`, `Color3`. -/
def tierLadder (r : Rules) : List (Tier × ℚ) :=
  [(.color1, r.color1), (.color2, r.color2), (.color3, r.color3)]

/-- Two-value composite ladder of slides 3 and 4
(src/ppt_generator.py lines 449-456 and 647-654): check `Color3` first
across both values, then `Color2`, then `Color1`, else `Invalid`. -/
def colorKeyPair (v1 v2 : ℚ) (r : Rules) : Tier :=
  if v1 ≥ r.color3 ∨ v2 ≥ r.color3 then .color3
  else if v1 ≥ r.color2 ∨ v2 ≥ r.color2 then .color2
  else if v1 ≥ r.color1 ∨ v2 ≥ r.color1 then .color1
  else .invalid

/-- Spec-side definition: the tier reached by one single value under the
composite (usage, higher-is-worse) ladder. -/
def usageTier (v : ℚ) (r : Rules) : Tier :=
  if v ≥ r.color3 then .color3
  else if v ≥ r.color2 then .color2
  else if v ≥ r.color1 then .color1
  else .invalid

/-- C1: for every value and every rule set with descending cutoffs, the
single-value classification returns the first tier (in order `Color1`,
`Color2`, `Color3`) whose cutoff the value meets or exceeds, else
`Invalid`; with cutoffs {90, 80, 70}: 95 and 90 (boundary inclusive) give
`Color1`, 85 gives `Color2`, 75 gives `Color3`, 50 gives `Invalid`. -/
theorem claim_C1_threshold_ladder (v : ℚ) (r : Rules)
    (_hdesc : r.color2 ≤ r.color1 ∧ r.color3 ≤ r.color2) :
    colorKeySingle v r = firstMeets v (tierLadder r)
      ∧ colorKeySingle 95 ⟨90, 80, 70⟩ = .color1
      ∧ colorKeySingle 90 ⟨90, 80, 70⟩ = .color1
      ∧ colorKeySingle 85 ⟨90, 80, 70⟩ = .color2
      ∧ colorKeySingle 75 ⟨90, 80, 70⟩ = .color3
      ∧ colorKeySingle 50 ⟨90, 80, 70⟩ = .invalid := by
  refine ⟨rfl, ?_, ?_, ?_, ?_, ?_⟩ <;> norm_num [colorKeySingle]

/-- Witness for C1 at `v = 95`, rules {90, 80, 70}. -/
theorem claim_C1_witness :
    colorKeySingle 95 ⟨90, 80, 70⟩ = firstMeets 95 (tierLadder ⟨90, 80, 70⟩) :=
  (claim_C1_threshold_ladder 95 ⟨90, 80, 70⟩ (by norm_num)).1

/-- C2: the two-value composite classification always equals the tier
reached by the higher of the two inputs under the same ladder; in
particular with usage rules {Color1=70, Color2=80, Color3=90}, inputs
(95, 50) yield the tier driven by 95 (`Color3`), which differs from the
tier 50 alone would reach. -/
theorem claim_C2_pair_is_worse_of_max (r : Rules) (v1 v2 : ℚ) :
    colorKeyPair v1 v2 r = usageTier (max v1 v2) r
      ∧ colorKeyPair 95 50 ⟨70, 80, 90⟩ = usageTier 95 ⟨70, 80, 90⟩
      ∧ colorKeyPair 95 50 ⟨70, 80, 90⟩ = .color3
      ∧ usageTier 50 ⟨70, 80, 90⟩ ≠ colorKeyPair 95 50 ⟨70, 80, 90⟩ := by
  refine ⟨?_, ?_, ?_, ?_⟩
  · simp only [colorKeyPair, usageTier, ge_iff_le, le_max_iff]
  · norm_num [colorKeyPair, usageTier]
  · norm_num [colorKeyPair]
  · have h50 : usageTier 50 ⟨70, 80, 90⟩ = .invalid := by norm_num [usageTier]
    have h95 : colorKeyPair 95 50 ⟨70, 80, 90⟩ = .color3 := by norm_num [colorKeyPair]
    rw [h50, h95]
    exact fun h => Tier.noConfusion h

/-- Witness for C2 at values (95, 50), usage rules {70, 80, 90}. -/
theorem claim_C2_witness :
    colorKeyPair 95 50 ⟨70, 80, 90⟩ = usageTier (max 95 50) ⟨70, 80, 90⟩ :=
  (claim_C2_pair_is_worse_of_max ⟨70, 80, 90⟩ 95 50).1

/-! ## Configuration Store: note limits (src/app.py `validate_notes_limits`)

`validate_notes_limits` (src/app.py lines 154-191) receives the notes
mapping (classification key → note text, `null` values skipped) and
checks at most 3 lines per value and at most 70 characters per line.
The JSON-text front end of the source function (quote normalization and
`json.loads`) is the identity on an already-parsed mapping, so the
embedding works on the mapping directly.  Python `str.splitlines` on
newline-separated text is embedded by `pySplitlines`. -/

/-- Split a character list on a separator, keeping empty pieces
(the semantics of Python `"x".split(sep)`). -/
def splitOnCharAux (sep : Char) : List Char → List Char → List (List Char)
  | [], acc => [acc.reverse]
  | c :: rest, acc =>
      if c = sep then acc.reverse :: splitOnCharAux sep rest []
      else splitOnCharAux sep rest (c :: acc)

/-- Python `str.splitlines` for text whose only line separator is
`"\n"`: split on newlines, dropping the final empty piece produced by a
trailing newline; the empty string has no lines. -/
def pySplitlines (s : String) : List String :=
  if s.data = [] then []
  else
    let parts := (splitOnCharAux (Char.ofNat 10) s.data []).map String.mk
    if s.data.getLast? = some (Char.ofNat 10) then parts.dropLast else parts

/-- Scan the lines of the value for key `k`, numbered from `idx`, and
return the error message of the first line longer than 70 characters
(src/app.py lines 186-189). -/
def lineLenError (k : String) : Nat → List String → Option String
  | _, [] => none
  | idx, line :: rest =>
      if line.length > 70 then
        some ("\x27" ++ k ++ "\x27 line " ++ toString idx ++ " is "
          ++ toString line.length ++ " chars (max 70).")
      else lineLenError k (idx + 1) rest

/-- src/app.py lines 154-191: for each (key, value) of the notes mapping
in order, skip `null` values, reject a value with more than 3 lines
naming the key and the line count, then reject the first line longer
than 70 characters naming the key and the line number; accept
otherwise.  Returns `(valid?, error message)`. -/
def validate_notes_limits : List (String × Option String) → Bool × Option String
  | [] => (true, none)
  | (_, none) :: rest => validate_notes_limits rest
  | (k, some v) :: rest =>
      let lines := pySplitlines v
      if lines.length > 3 then
        (false, some ("\x27" ++ k ++ "\x27 has " ++ toString lines.length
          ++ " lines (max 3 allowed)."))
      else
        match lineLenError k 1 lines with
        | some msg => (false, some msg)
        | none => validate_notes_limits rest

/-- The acceptance condition of the spec: every present value has at
most 3 lines and every line has at most 70 characters. -/
def notesWithinLimits (data : List (String × Option String)) : Prop :=
  ∀ p ∈ data, ∀ s, p.2 = some s →
    (pySplitlines s).length ≤ 3 ∧ ∀ l ∈ pySplitlines s, l.length ≤ 70

theorem lineLenError_eq_none_iff (k : String) (idx : Nat) (ls : List String) :
    lineLenError k idx ls = none ↔ ∀ l ∈ ls, l.length ≤ 70 := by
  induction ls generalizing idx with
  | nil => simp [lineLenError]
  | cons a rest ih =>
    by_cases h : a.length > 70
    · simp only [lineLenError, if_pos h]
      constructor
      · intro hc; exact absurd hc (by simp)
      · intro hall; exact absurd (hall a (List.mem_cons_self a rest)) (by omega)
    · simp only [lineLenError, if_neg h, ih (idx + 1)]
      constructor
      · intro hr l hl
        rcases List.mem_cons.mp hl with rfl | hl
        · omega
        · exact hr l hl
      · intro hall l hl
        exact hall l (List.mem_cons_of_mem a hl)

/-- A 70-character line. -/
def line70 : String := String.mk (List.replicate 70 (Char.ofNat 97))

/-- A 71-character line. -/
def line71 : String := String.mk (List.replicate 71 (Char.ofNat 98))

/-- Three lines of 70 characters each. -/
def note3x70 : String := line70 ++ "\n" ++ line70 ++ "\n" ++ line70

/-- A four-line value. -/
def note4lines : String := "a\nb\nc\nd"

/-- C7: note validation accepts a notes mapping iff every
classification text has at most 3 lines, each of at most 70
characters; 3 lines of 70 characters are accepted, a 4-line value is
rejected naming the key and the line-count limit, and a 71-character
line is rejected naming the key, the line number, and the line-length
limit. -/
theorem claim_C7_note_limits (data : List (String × Option String)) :
    ((validate_notes_limits data).1 = true ↔ notesWithinLimits data)
      ∧ validate_notes_limits [("color1", some note3x70)] = (true, none)
      ∧ validate_notes_limits [("color1", some note4lines)]
          = (false, some "\x27color1\x27 has 4 lines (max 3 allowed).")
      ∧ validate_notes_limits [("color1", some (line70 ++ "\n" ++ line71))]
          = (false, some "\x27color1\x27 line 2 is 71 chars (max 70).") := by
  refine ⟨?_, by decide, by decide, by decide⟩
  induction data with
  | nil => simp [validate_notes_limits, notesWithinLimits]
  | cons p rest ih =>
    obtain ⟨k, v⟩ := p
    cases v with
    | none =>
      rw [show validate_notes_limits ((k, none) :: rest)
            = validate_notes_limits rest from rfl, ih]
      constructor
      · intro hr q hq s hs
        rcases List.mem_cons.mp hq with rfl | hq
        · exact absurd hs (by simp)
        · exact hr q hq s hs
      · intro hall q hq s hs
        exact hall q (List.mem_cons_of_mem _ hq) s hs
    | some s =>
      by_cases h3 : (pySplitlines s).length > 3
      · rw [show validate_notes_limits ((k, some s) :: rest)
              = (false, some ("\x27" ++ k ++ "\x27 has "
                  ++ toString (pySplitlines s).length
                  ++ " lines (max 3 allowed).")) from by
            simp [validate_notes_limits, if_pos h3]]
        constructor
        · intro hc; exact absurd hc (by simp)
        · intro hall
          have := (hall (k, some s) (List.mem_cons_self _ rest) s rfl).1
          omega
      · by_cases hlen : lineLenError k 1 (pySplitlines s) = none
        · rw [show validate_notes_limits ((k, some s) :: rest)
                = validate_notes_limits rest from by
              simp [validate_notes_limits, if_neg h3, hlen], ih]
          have hlines := (lineLenError_eq_none_iff k 1 (pySplitlines s)).mp hlen
          constructor
          · intro hr q hq t ht
            rcases List.mem_cons.mp hq with rfl | hq
            · cases ht
              exact ⟨by omega, hlines⟩
            · exact hr q hq t ht
          · intro hall q hq t ht
            exact hall q (List.mem_cons_of_mem _ hq) t ht
        · obtain ⟨msg, hmsg⟩ := Option.ne_none_iff_exists'.mp hlen
          rw [show validate_notes_limits ((k, some s) :: rest)
                = (false, some msg) from by
              simp [validate_notes_limits, if_neg h3, hmsg]]
          constructor
          · intro hc; exact absurd hc (by simp)
          · intro hall
            have := (hall (k, some s) (List.mem_cons_self _ rest) s rfl).2
            exact absurd ((lineLenError_eq_none_iff k 1 (pySplitlines s)).mpr this)
              hlen

/-- Witness for C7: three 70-character lines are accepted. -/
theorem claim_C7_witness :
    validate_notes_limits [("color1", some note3x70)] = (true, none) :=
  (claim_C7_note_limits []).2.1

/-! ## Data model (src/app.py)

One row type per database table, with the columns the handlers read or
write.  Integer columns are `Int`, float/`Decimal`/percentage columns
are `ℚ`, `jsonb` text columns are `Option String`, months are an
integer month index (`month_year` is always the first day of a month).
Unreferenced audit columns and the per-priority (p1..p4) ticket columns
are written only as the constant 0 by the handlers; the p-columns are
kept so the insert paths stay complete. -/

/-- Table customer_mapping_table (the ConfigurationRecord). -/
structure ConfigRow where
  customer_name : String
  month_year : Int
  csm_primary : String := ""
  csm_secondary : String := ""
  customer_full_name : Option String := none
  customer_uid : List String := []
  no_of_environments : Int := 2
  no_of_months : Int := 6
  color_map_thresholds_availability : Option String := none
  color_map_thresholds_users : Option String := none
  color_map_thresholds_storage : Option String := none
  indicator_color_code_rules : Option String := none
  circle_color_code_rules : Option String := none
  notes_availability : Option String := none
  notes_users : Option String := none
  notes_storage : Option String := none
  customer_note : Option String := none

/-- Table final_computed_table (the denormalized AggregateRecord). -/
structure AggRow where
  customer_name : String
  month_year : Int
  csm_primary : String := ""
  csm_secondary : String := ""
  customer_full_name : Option String := none
  customer_uid : List String := []
  updated_availability : ℚ := 0
  updated_target : ℚ := 0
  updated_prod_limit : Int := 0
  updated_test_limit : Int := 0
  updated_dev_limit : Int := 0
  updated_prod_used : Int := 0
  updated_test_used : Int := 0
  updated_dev_used : Int := 0
  updated_prod_target_storage_gb : ℚ := 0
  updated_test_target_storage_gb : ℚ := 0
  updated_dev_target_storage_gb : ℚ := 0
  updated_prod_storage_gb : ℚ := 0
  updated_test_storage_gb : ℚ := 0
  updated_dev_storage_gb : ℚ := 0
  updated_tickets_opened : Int := 0
  updated_tickets_closed : Int := 0
  updated_tickets_backlog : Int := 0
  updated_current_opened_tickets : Int := 0
  updated_current_closed_tickets : Int := 0
  updated_current_backlog_tickets : Int := 0
  updated_p1_opened : Int := 0
  updated_p1_closed : Int := 0
  updated_p1_backlog : Int := 0
  updated_p2_opened : Int := 0
  updated_p2_closed : Int := 0
  updated_p2_backlog : Int := 0
  updated_p3_opened : Int := 0
  updated_p3_closed : Int := 0
  updated_p3_backlog : Int := 0
  updated_p4_opened : Int := 0
  updated_p4_closed : Int := 0
  updated_p4_backlog : Int := 0

/-- Table availability_table. -/
structure AvailRow where
  customer_name : String
  month_year : Int
  total_availability : ℚ := 0
  updated_availability : ℚ := 0
  target : ℚ := 0
  updated_target : ℚ := 0

/-- Table users_table. -/
structure UsersRow where
  customer_name : String
  month_year : Int
  prod_limit : Int := 0
  test_limit : Int := 0
  dev_limit : Int := 0
  prod_used : Int := 0
  test_used : Int := 0
  dev_used : Int := 0
  updated_prod_limit : Int := 0
  updated_test_limit : Int := 0
  updated_dev_limit : Int := 0
  updated_prod_used : Int := 0
  updated_test_used : Int := 0
  updated_dev_used : Int := 0

/-- Table storage_table. -/
structure StorageRow where
  customer_name : String
  month_year : Int
  prod_target_storage_gb : ℚ := 0
  test_target_storage_gb : ℚ := 0
  dev_target_storage_gb : ℚ := 0
  prod_storage_gb : ℚ := 0
  test_storage_gb : ℚ := 0
  dev_storage_gb : ℚ := 0
  updated_prod_target_storage_gb : ℚ := 0
  updated_test_target_storage_gb : ℚ := 0
  updated_dev_target_storage_gb : ℚ := 0
  updated_prod_storage_gb : ℚ := 0
  updated_test_storage_gb : ℚ := 0
  updated_dev_storage_gb : ℚ := 0

/-- Table tickets_computed_table. -/
structure TicketsRow where
  customer_name : String
  month_year : Int
  tickets_opened : Int := 0
  tickets_closed : Int := 0
  tickets_backlog : Int := 0
  updated_tickets_opened : Int := 0
  updated_tickets_closed : Int := 0
  updated_tickets_backlog : Int := 0
  current_opened_tickets : Int := 0
  current_closed_tickets : Int := 0
  current_backlog_tickets : Int := 0
  updated_current_opened_tickets : Int := 0
  updated_current_closed_tickets : Int := 0
  updated_current_backlog_tickets : Int := 0
  p1_opened : Int := 0
  p1_closed : Int := 0
  p1_backlog : Int := 0
  p2_opened : Int := 0
  p2_closed : Int := 0
  p2_backlog : Int := 0
  p3_opened : Int := 0
  p3_closed : Int := 0
  p3_backlog : Int := 0
  p4_opened : Int := 0
  p4_closed : Int := 0
  p4_backlog : Int := 0
  updated_p1_opened : Int := 0
  updated_p1_closed : Int := 0
  updated_p1_backlog : Int := 0
  updated_p2_opened : Int := 0
  updated_p2_closed : Int := 0
  updated_p2_backlog : Int := 0
  updated_p3_opened : Int := 0
  updated_p3_closed : Int := 0
  updated_p3_backlog : Int := 0
  updated_p4_opened : Int := 0
  updated_p4_closed : Int := 0
  updated_p4_backlog : Int := 0

/-- The whole relational store. -/
structure DB where
  customer_mapping_table : List ConfigRow := []
  final_computed_table : List AggRow := []
  availability_table : List AvailRow := []
  users_table : List UsersRow := []
  storage_table : List StorageRow := []
  tickets_computed_table : List TicketsRow := []

/-! ## Transaction model

Each mutating handler opens one psycopg2 connection, executes its SQL
statements on one cursor, and calls `commit` at most once at the end.
PostgreSQL semantics: a statement that errors aborts the transaction,
every later statement on it fails, and a `COMMIT` of an aborted
transaction is a rollback; a connection discarded without `commit`
also rolls back.  So the committed state of a handler is the full effect of
all its statements when every statement succeeded, and the original
state otherwise.  External (driver/constraint) failures of each
statement are modeled by one `Bool` oracle per statement, `true` =
statement succeeds. -/

/-- Run statements in order; `none` = a statement failed (transaction
aborted). -/
def runStmts : List (DB → Option DB) → DB → Option DB
  | [], db => some db
  | s :: rest, db =>
      match s db with
      | some d => runStmts rest d
      | none => none

/-- Final stored state after `commit`: the buffered state on success,
the original state if the transaction aborted. -/
def commitOr (db0 : DB) : Option DB → DB
  | some d => d
  | none => db0

/-- An infallible SQL statement under a failure oracle `ok`. -/
def stmt (ok : Bool) (f : DB → DB) : DB → Option DB :=
  fun db => if ok then some (f db) else none

/-- Uniform success/failure response of the mutating endpoints. -/
structure SaveResp where
  success : Bool
  message : String
  warnings : List String := []
deriving DecidableEq, Repr

/-- Placeholder for a driver error message (`str(e)`), whose text comes
from the external persistence layer. -/
def dbErrorMessage : String := "database error"

/-! ## Multi-Table Synchronizer: domain edits (src/app.py) -/

/-- src/app.py lines 418-422 and 423-427: the two `save_availability`
updates on `final_computed_table` and `availability_table`. -/
def updFinalAvailability (c : String) (m : Int) (a t : ℚ) (db : DB) : DB :=
  { db with final_computed_table := db.final_computed_table.map fun r =>
      if r.customer_name = c ∧ r.month_year = m then
        { r with updated_availability := a, updated_target := t }
      else r }

def updAvailabilityTable (c : String) (m : Int) (a t : ℚ) (db : DB) : DB :=
  { db with availability_table := db.availability_table.map fun r =>
      if r.customer_name = c ∧ r.month_year = m then
        { r with updated_availability := a, updated_target := t }
      else r }

/-- src/app.py `save_availability` (lines 404-433): validate ≤ 100,
convert to decimals, update both tables, one commit. -/
def save_availability (c : String) (m : Int) (availability target : ℚ)
    (ok1 ok2 : Bool) (db : DB) : SaveResp × DB :=
  if availability > 100 ∨ target > 100 then
    ({ success := false, message := "Values must be ≤ 100" }, db)
  else
    let a := availability / 100
    let t := target / 100
    match runStmts [stmt ok1 (updFinalAvailability c m a t),
                    stmt ok2 (updAvailabilityTable c m a t)] db with
    | some d =>
        ({ success := true,
           message := "Availability updated to " ++ toString availability
             ++ "% and Target to " ++ toString target ++ "%" }, d)
    | none => ({ success := false, message := dbErrorMessage }, db)

/-- The user-domain edit values of `save_users`. -/
structure UsersForm where
  prod_limit : Int
  prod_used : Int
  test_limit : Int
  test_used : Int
  dev_limit : Int := 0
  dev_used : Int := 0
deriving DecidableEq, Repr

/-- Write all six `updated_*` user fields of a `users_table` row (the SET
list of src/app.py lines 474-480). -/
def setUsersRowAll (f : UsersForm) (r : UsersRow) : UsersRow :=
  { r with
      updated_prod_limit := f.prod_limit, updated_prod_used := f.prod_used,
      updated_test_limit := f.test_limit, updated_test_used := f.test_used,
      updated_dev_limit := f.dev_limit, updated_dev_used := f.dev_used }

/-- Write only the three limit fields of a `users_table` row (the SET
list of src/app.py lines 483-487). -/
def setUsersRowLimits (f : UsersForm) (r : UsersRow) : UsersRow :=
  { r with
      updated_prod_limit := f.prod_limit,
      updated_test_limit := f.test_limit,
      updated_dev_limit := f.dev_limit }

/-- Write all six `updated_*` user fields of an aggregate row (the SET
list of src/app.py lines 458-464). -/
def setUsersAggAll (f : UsersForm) (r : AggRow) : AggRow :=
  { r with
      updated_prod_limit := f.prod_limit, updated_prod_used := f.prod_used,
      updated_test_limit := f.test_limit, updated_test_used := f.test_used,
      updated_dev_limit := f.dev_limit, updated_dev_used := f.dev_used }

/-- Write only the three limit fields of an aggregate row (the SET list
of src/app.py lines 467-471). -/
def setUsersAggLimits (f : UsersForm) (r : AggRow) : AggRow :=
  { r with
      updated_prod_limit := f.prod_limit,
      updated_test_limit := f.test_limit,
      updated_dev_limit := f.dev_limit }

/-- src/app.py lines 458-464: update all six user fields of the
aggregate row for exactly (customer, month). -/
def updFinalUsersMonth (c : String) (m : Int) (f : UsersForm) (db : DB) : DB :=
  { db with final_computed_table := db.final_computed_table.map fun r =>
      if r.customer_name = c ∧ r.month_year = m then setUsersAggAll f r else r }

/-- src/app.py lines 467-471: propagate the three limits to every
strictly later month of the customer in the aggregate table. -/
def updFinalUsersFuture (c : String) (m : Int) (f : UsersForm) (db : DB) : DB :=
  { db with final_computed_table := db.final_computed_table.map fun r =>
      if r.customer_name = c ∧ m < r.month_year then setUsersAggLimits f r else r }

/-- src/app.py lines 474-480: update all six user fields of the
`users_table` row for exactly (customer, month). -/
def updUsersTableMonth (c : String) (m : Int) (f : UsersForm) (db : DB) : DB :=
  { db with users_table := db.users_table.map fun r =>
      if r.customer_name = c ∧ r.month_year = m then setUsersRowAll f r else r }

/-- src/app.py lines 483-487: propagate the three limits to every
strictly later month of the customer in `users_table`. -/
def updUsersTableFuture (c : String) (m : Int) (f : UsersForm) (db : DB) : DB :=
  { db with users_table := db.users_table.map fun r =>
      if r.customer_name = c ∧ m < r.month_year then setUsersRowLimits f r else r }

/-- src/app.py lines 447-453: the non-fatal used-exceeds-limit
warnings; a zero-limit dev tier does not warn. -/
def usersWarnings (f : UsersForm) : List String :=
  (if f.prod_used > f.prod_limit then ["Prod Used > Prod Limit"] else [])
    ++ (if f.test_used > f.test_limit then ["Test Used > Test Limit"] else [])
    ++ (if f.dev_used > f.dev_limit ∧ f.dev_limit > 0 then
          ["Dev Used > Dev Limit"] else [])

/-- src/app.py `save_users` (lines 435-497): four updates
(aggregate month, aggregate future, domain month, domain future), one
commit, warnings attached to the success message. -/
def save_users (c : String) (m : Int) (f : UsersForm)
    (ok1 ok2 ok3 ok4 : Bool) (db : DB) : SaveResp × DB :=
  let warnings := usersWarnings f
  match runStmts [stmt ok1 (updFinalUsersMonth c m f),
                  stmt ok2 (updFinalUsersFuture c m f),
                  stmt ok3 (updUsersTableMonth c m f),
                  stmt ok4 (updUsersTableFuture c m f)] db with
  | some d =>
      ({ success := true,
         message :=
           if warnings.isEmpty then "Users data updated successfully"
           else "Users data updated successfully (Warning: "
             ++ String.intercalate ", " warnings ++ ")",
         warnings := warnings }, d)
  | none => ({ success := false, message := dbErrorMessage }, db)

/-- The storage-domain edit values of `save_storage`. -/
structure StorageForm where
  prod_target : ℚ := 0
  prod_actual : ℚ := 0
  test_target : ℚ := 0
  test_actual : ℚ := 0
  dev_target : ℚ := 0
  dev_actual : ℚ := 0
deriving DecidableEq, Repr

/-- Write all six `updated_*` storage fields of a `storage_table` row
(the SET list of src/app.py lines 542-548). -/
def setStorageRowAll (f : StorageForm) (r : StorageRow) : StorageRow :=
  { r with
      updated_prod_target_storage_gb := f.prod_target,
      updated_prod_storage_gb := f.prod_actual,
      updated_test_target_storage_gb := f.test_target,
      updated_test_storage_gb := f.test_actual,
      updated_dev_target_storage_gb := f.dev_target,
      updated_dev_storage_gb := f.dev_actual }

/-- Write only the three storage targets of a `storage_table` row (the
SET list of src/app.py lines 551-555). -/
def setStorageRowTargets (f : StorageForm) (r : StorageRow) : StorageRow :=
  { r with
      updated_prod_target_storage_gb := f.prod_target,
      updated_test_target_storage_gb := f.test_target,
      updated_dev_target_storage_gb := f.dev_target }

/-- Write all six `updated_*` storage fields of an aggregate row (the
SET list of src/app.py lines 526-532). -/
def setStorageAggAll (f : StorageForm) (r : AggRow) : AggRow :=
  { r with
      updated_prod_target_storage_gb := f.prod_target,
      updated_prod_storage_gb := f.prod_actual,
      updated_test_target_storage_gb := f.test_target,
      updated_test_storage_gb := f.test_actual,
      updated_dev_target_storage_gb := f.dev_target,
      updated_dev_storage_gb := f.dev_actual }

/-- Write only the three storage targets of an aggregate row (the SET
list of src/app.py lines 535-539). -/
def setStorageAggTargets (f : StorageForm) (r : AggRow) : AggRow :=
  { r with
      updated_prod_target_storage_gb := f.prod_target,
      updated_test_target_storage_gb := f.test_target,
      updated_dev_target_storage_gb := f.dev_target }

/-- src/app.py lines 526-532: update all six storage fields of the
aggregate row for exactly (customer, month). -/
def updFinalStorageMonth (c : String) (m : Int) (f : StorageForm) (db : DB) : DB :=
  { db with final_computed_table := db.final_computed_table.map fun r =>
      if r.customer_name = c ∧ r.month_year = m then setStorageAggAll f r else r }

/-- src/app.py lines 535-539: propagate the three storage targets to
every strictly later month of the customer in the aggregate table. -/
def updFinalStorageFuture (c : String) (m : Int) (f : StorageForm) (db : DB) : DB :=
  { db with final_computed_table := db.final_computed_table.map fun r =>
      if r.customer_name = c ∧ m < r.month_year then setStorageAggTargets f r else r }

/-- src/app.py lines 542-548: update all six storage fields of the
`storage_table` row for exactly (customer, month). -/
def updStorageTableMonth (c : String) (m : Int) (f : StorageForm) (db : DB) : DB :=
  { db with storage_table := db.storage_table.map fun r =>
      if r.customer_name = c ∧ r.month_year = m then setStorageRowAll f r else r }

/-- src/app.py lines 551-555: propagate the three storage targets to
every strictly later month of the customer in `storage_table`. -/
def updStorageTableFuture (c : String) (m : Int) (f : StorageForm) (db : DB) : DB :=
  { db with storage_table := db.storage_table.map fun r =>
      if r.customer_name = c ∧ m < r.month_year then setStorageRowTargets f r else r }

/-- src/app.py `save_storage` (lines 499-562): four updates, one
commit. -/
def save_storage (c : String) (m : Int) (f : StorageForm)
    (ok1 ok2 ok3 ok4 : Bool) (db : DB) : SaveResp × DB :=
  match runStmts [stmt ok1 (updFinalStorageMonth c m f),
                  stmt ok2 (updFinalStorageFuture c m f),
                  stmt ok3 (updStorageTableMonth c m f),
                  stmt ok4 (updStorageTableFuture c m f)] db with
  | some d => ({ success := true, message := "Storage data updated successfully" }, d)
  | none => ({ success := false, message := dbErrorMessage }, db)

/-- The ticket-domain edit values of `save_tickets`. -/
structure TicketsForm where
  opened : Int
  closed : Int
  curr_backlog : Int
  overall_backlog : Int
deriving DecidableEq, Repr

/-- src/app.py lines 582-598: update the four ticket fields of the
aggregate row for exactly (customer, month). -/
def updFinalTickets (c : String) (m : Int) (f : TicketsForm) (db : DB) : DB :=
  { db with final_computed_table := db.final_computed_table.map fun r =>
      if r.customer_name = c ∧ r.month_year = m then
        { r with
            updated_current_opened_tickets := f.opened,
            updated_current_closed_tickets := f.closed,
            updated_current_backlog_tickets := f.curr_backlog,
            updated_tickets_backlog := f.overall_backlog }
      else r }

/-- src/app.py lines 601-617: the same update on
`tickets_computed_table`. -/
def updTicketsTable (c : String) (m : Int) (f : TicketsForm) (db : DB) : DB :=
  { db with tickets_computed_table := db.tickets_computed_table.map fun r =>
      if r.customer_name = c ∧ r.month_year = m then
        { r with
            updated_current_opened_tickets := f.opened,
            updated_current_closed_tickets := f.closed,
            updated_current_backlog_tickets := f.curr_backlog,
            updated_tickets_backlog := f.overall_backlog }
      else r }

/-- src/app.py `save_tickets` (lines 564-626): two updates, one
commit. -/
def save_tickets (c : String) (m : Int) (f : TicketsForm)
    (ok1 ok2 : Bool) (db : DB) : SaveResp × DB :=
  match runStmts [stmt ok1 (updFinalTickets c m f),
                  stmt ok2 (updTicketsTable c m f)] db with
  | some d => ({ success := true, message := "Tickets updated successfully" }, d)
  | none => ({ success := false, message := dbErrorMessage }, db)

/-! ## C3: limit/target propagation of the users and storage edits -/

/-- Net per-row effect of `save_users` on a `users_table` row: all six
fields at the edited month, only the limits at strictly later months of
the same customer, nothing elsewhere. -/
def usersRowEffect (c : String) (m : Int) (f : UsersForm) (r : UsersRow) : UsersRow :=
  if r.customer_name = c ∧ r.month_year = m then setUsersRowAll f r
  else if r.customer_name = c ∧ m < r.month_year then setUsersRowLimits f r
  else r

/-- Net per-row effect of `save_users` on an aggregate row. -/
def usersAggEffect (c : String) (m : Int) (f : UsersForm) (r : AggRow) : AggRow :=
  if r.customer_name = c ∧ r.month_year = m then setUsersAggAll f r
  else if r.customer_name = c ∧ m < r.month_year then setUsersAggLimits f r
  else r

/-- Net per-row effect of `save_storage` on a `storage_table` row. -/
def storageRowEffect (c : String) (m : Int) (f : StorageForm) (r : StorageRow) :
    StorageRow :=
  if r.customer_name = c ∧ r.month_year = m then setStorageRowAll f r
  else if r.customer_name = c ∧ m < r.month_year then setStorageRowTargets f r
  else r

/-- Net per-row effect of `save_storage` on an aggregate row. -/
def storageAggEffect (c : String) (m : Int) (f : StorageForm) (r : AggRow) : AggRow :=
  if r.customer_name = c ∧ r.month_year = m then setStorageAggAll f r
  else if r.customer_name = c ∧ m < r.month_year then setStorageAggTargets f r
  else r

theorem save_users_allok (c : String) (m : Int) (f : UsersForm) (db : DB) :
    (save_users c m f true true true true db).2
      = { db with
          final_computed_table := db.final_computed_table.map (usersAggEffect c m f),
          users_table := db.users_table.map (usersRowEffect c m f) } := by
  show updUsersTableFuture c m f (updUsersTableMonth c m f
      (updFinalUsersFuture c m f (updFinalUsersMonth c m f db))) = _
  unfold updUsersTableFuture updUsersTableMonth updFinalUsersFuture updFinalUsersMonth
  simp only [List.map_map]
  congr 1
  · refine List.map_congr_left fun r _ => ?_
    simp only [Function.comp_apply]
    by_cases h1 : r.customer_name = c ∧ r.month_year = m
    · simp [h1, usersAggEffect, setUsersAggAll]
    · by_cases h2 : r.customer_name = c ∧ m < r.month_year
      · obtain ⟨hc, hm⟩ := h2
        have hne : r.month_year ≠ m := fun h => h1 ⟨hc, h⟩
        simp [usersAggEffect, hc, hm, hne]
      · simp [h1, h2, usersAggEffect]
  · refine List.map_congr_left fun r _ => ?_
    simp only [Function.comp_apply]
    by_cases h1 : r.customer_name = c ∧ r.month_year = m
    · simp [h1, usersRowEffect, setUsersRowAll]
    · by_cases h2 : r.customer_name = c ∧ m < r.month_year
      · obtain ⟨hc, hm⟩ := h2
        have hne : r.month_year ≠ m := fun h => h1 ⟨hc, h⟩
        simp [usersRowEffect, hc, hm, hne]
      · simp [h1, h2, usersRowEffect]

theorem save_storage_allok (c : String) (m : Int) (f : StorageForm) (db : DB) :
    (save_storage c m f true true true true db).2
      = { db with
          final_computed_table := db.final_computed_table.map (storageAggEffect c m f),
          storage_table := db.storage_table.map (storageRowEffect c m f) } := by
  show updStorageTableFuture c m f (updStorageTableMonth c m f
      (updFinalStorageFuture c m f (updFinalStorageMonth c m f db))) = _
  unfold updStorageTableFuture updStorageTableMonth updFinalStorageFuture
    updFinalStorageMonth
  simp only [List.map_map]
  congr 1
  · refine List.map_congr_left fun r _ => ?_
    simp only [Function.comp_apply]
    by_cases h1 : r.customer_name = c ∧ r.month_year = m
    · simp [h1, storageAggEffect, setStorageAggAll]
    · by_cases h2 : r.customer_name = c ∧ m < r.month_year
      · obtain ⟨hc, hm⟩ := h2
        have hne : r.month_year ≠ m := fun h => h1 ⟨hc, h⟩
        simp [storageAggEffect, hc, hm, hne]
      · simp [h1, h2, storageAggEffect]
  · refine List.map_congr_left fun r _ => ?_
    simp only [Function.comp_apply]
    by_cases h1 : r.customer_name = c ∧ r.month_year = m
    · simp [h1, storageRowEffect, setStorageRowAll]
    · by_cases h2 : r.customer_name = c ∧ m < r.month_year
      · obtain ⟨hc, hm⟩ := h2
        have hne : r.month_year ≠ m := fun h => h1 ⟨hc, h⟩
        simp [storageRowEffect, hc, hm, hne]
      · simp [h1, h2, storageRowEffect]

/-- C3: a users or storage edit at (C, M) rewrites the aggregate table
and the edited domain table row-wise (touching no other table); the
per-row effect leaves untouched every row of another customer and every
row of C with month < M, writes only the three limit/target fields at
months > M, and writes the full field set (limits and used/actual) only
at month M itself. -/
theorem claim_C3_limit_propagation (c : String) (m : Int) (uf : UsersForm)
    (sf : StorageForm) (db : DB) :
    ((save_users c m uf true true true true db).2
        = { db with
            final_computed_table := db.final_computed_table.map (usersAggEffect c m uf),
            users_table := db.users_table.map (usersRowEffect c m uf) }
      ∧ (save_storage c m sf true true true true db).2
        = { db with
            final_computed_table := db.final_computed_table.map (storageAggEffect c m sf),
            storage_table := db.storage_table.map (storageRowEffect c m sf) })
      ∧ ((∀ r : UsersRow, r.customer_name ≠ c ∨ r.month_year < m →
            usersRowEffect c m uf r = r)
        ∧ (∀ r : UsersRow, r.customer_name = c → m < r.month_year →
            usersRowEffect c m uf r = setUsersRowLimits uf r)
        ∧ (∀ r : UsersRow, r.customer_name = c → r.month_year = m →
            usersRowEffect c m uf r = setUsersRowAll uf r))
      ∧ ((∀ r : AggRow, r.customer_name ≠ c ∨ r.month_year < m →
            usersAggEffect c m uf r = r)
        ∧ (∀ r : AggRow, r.customer_name = c → m < r.month_year →
            usersAggEffect c m uf r = setUsersAggLimits uf r)
        ∧ (∀ r : AggRow, r.customer_name = c → r.month_year = m →
            usersAggEffect c m uf r = setUsersAggAll uf r))
      ∧ ((∀ r : StorageRow, r.customer_name ≠ c ∨ r.month_year < m →
            storageRowEffect c m sf r = r)
        ∧ (∀ r : StorageRow, r.customer_name = c → m < r.month_year →
            storageRowEffect c m sf r = setStorageRowTargets sf r)
        ∧ (∀ r : StorageRow, r.customer_name = c → r.month_year = m →
            storageRowEffect c m sf r = setStorageRowAll sf r))
      ∧ ((∀ r : AggRow, r.customer_name ≠ c ∨ r.month_year < m →
            storageAggEffect c m sf r = r)
        ∧ (∀ r : AggRow, r.customer_name = c → m < r.month_year →
            storageAggEffect c m sf r = setStorageAggTargets sf r)
        ∧ (∀ r : AggRow, r.customer_name = c → r.month_year = m →
            storageAggEffect c m sf r = setStorageAggAll sf r)) := by
  refine ⟨⟨save_users_allok c m uf db, save_storage_allok c m sf db⟩,
    ⟨?_, ?_, ?_⟩, ⟨?_, ?_, ?_⟩, ⟨?_, ?_, ?_⟩, ⟨?_, ?_, ?_⟩⟩
  all_goals intro r
  case refine_1 | refine_4 | refine_7 | refine_10 =>
    intro h
    have h1 : ¬(r.customer_name = c ∧ r.month_year = m) := by
      rcases h with h | h
      · exact fun hc => h hc.1
      · exact fun hc => absurd hc.2 (by omega)
    have h2 : ¬(r.customer_name = c ∧ m < r.month_year) := by
      rcases h with h | h
      · exact fun hc => h hc.1
      · exact fun hc => absurd hc.2 (by omega)
    simp [usersRowEffect, usersAggEffect, storageRowEffect, storageAggEffect, h1, h2]
  case refine_2 | refine_5 | refine_8 | refine_11 =>
    intro hc hm
    have hne : r.month_year ≠ m := by omega
    simp [usersRowEffect, usersAggEffect, storageRowEffect, storageAggEffect,
      hne, hc, hm]
  case refine_3 | refine_6 | refine_9 | refine_12 =>
    intro hc hm
    simp [usersRowEffect, usersAggEffect, storageRowEffect, storageAggEffect, hc, hm]

/-- Witness for C3 at concrete inputs: editing users limits of customer
"A" at month 2 leaves the month-1 row alone, rewrites only the limits of
the month-3 row, and rewrites all six fields of the month-2 row. -/
theorem claim_C3_witness :
    usersRowEffect "A" 2 ⟨7, 1, 7, 1, 0, 0⟩ { customer_name := "A", month_year := 1 }
        = { customer_name := "A", month_year := 1 }
      ∧ usersRowEffect "A" 2 ⟨7, 1, 7, 1, 0, 0⟩ { customer_name := "A", month_year := 3 }
        = setUsersRowLimits ⟨7, 1, 7, 1, 0, 0⟩ { customer_name := "A", month_year := 3 }
      ∧ usersRowEffect "A" 2 ⟨7, 1, 7, 1, 0, 0⟩ { customer_name := "A", month_year := 2 }
        = setUsersRowAll ⟨7, 1, 7, 1, 0, 0⟩ { customer_name := "A", month_year := 2 } := by
  have h := claim_C3_limit_propagation "A" 2 ⟨7, 1, 7, 1, 0, 0⟩ {} {}
  exact ⟨h.2.1.1 _ (Or.inr (by norm_num)),
    h.2.1.2.1 _ rfl (by norm_num),
    h.2.1.2.2 _ rfl rfl⟩

/-- Key predicates for point lookups by (customer, month). -/
def cfgKey (c : String) (m : Int) (r : ConfigRow) : Bool :=
  r.customer_name = c ∧ r.month_year = m

def aggKey (c : String) (m : Int) (r : AggRow) : Bool :=
  r.customer_name = c ∧ r.month_year = m

def availKey (c : String) (m : Int) (r : AvailRow) : Bool :=
  r.customer_name = c ∧ r.month_year = m

def usersKey (c : String) (m : Int) (r : UsersRow) : Bool :=
  r.customer_name = c ∧ r.month_year = m

def storageKey (c : String) (m : Int) (r : StorageRow) : Bool :=
  r.customer_name = c ∧ r.month_year = m

def ticketsKey (c : String) (m : Int) (r : TicketsRow) : Bool :=
  r.customer_name = c ∧ r.month_year = m

/-! ## Configuration Store upsert (src/app.py `save_config`)

`json.loads`/`json.dumps` belong to the external JSON library; they are
abstracted by a `parse` function that returns the canonical dump of its
input on success and `none` on a parse failure.  Likewise the note
check applied to the dumped text is abstracted by `notesCheck` (its
mapping-level logic is `validate_notes_limits` above). -/

/-- src/app.py lines 889-891: strip, single-to-double-quote
normalization, Python constants to JSON constants. -/
def pyNormalizeJson (s : String) : String :=
  ((((s.trim).replace "\x27" "\x22").replace "None" "null").replace
    "True" "true").replace "False" "false"

/-- src/app.py lines 886-896 `safe_json`: an absent or empty (falsy)
value gives `None`; otherwise normalize and parse, with `None` on a
parse failure. -/
def safe_json (parse : String → Option String) : Option String → Option String
  | none => none
  | some v => if v = "" then none else parse (pyNormalizeJson v)

/-- The `save_config` request payload (src/app.py lines 878-930). -/
structure ConfigForm where
  customer_full_name : String := ""
  csm_primary : String := ""
  csm_secondary : String := ""
  new_customer_uid : String := ""
  no_of_envs : Int := 2
  no_of_months : Int := 6
  thr_availability : Option String := none
  thr_users : Option String := none
  thr_storage : Option String := none
  indicator_colors : Option String := none
  circle_colors : Option String := none
  notes_availability : Option String := none
  notes_users : Option String := none
  notes_storage : Option String := none
  customer_note : Option String := none

/-- The eight parsed structured fields, in the order of the
`if None in [...]` check (src/app.py lines 898-911). -/
def configJsonFields (parse : String → Option String) (form : ConfigForm) :
    List (Option String) :=
  [safe_json parse form.thr_availability,
   safe_json parse form.thr_users,
   safe_json parse form.thr_storage,
   safe_json parse form.indicator_colors,
   safe_json parse form.circle_colors,
   safe_json parse form.notes_availability,
   safe_json parse form.notes_users,
   safe_json parse form.notes_storage]

/-- src/app.py lines 935-951: read the stored identifier list of the
row and append the (stripped) new identifier when one was given. -/
def uidArrayOf (c : String) (m : Int) (form : ConfigForm) (db : DB) : List String :=
  let existing :=
    match db.customer_mapping_table.find? (cfgKey c m) with
    | some r => r.customer_uid
    | none => []
  if form.new_customer_uid.trim = "" then existing
  else existing ++ [form.new_customer_uid.trim]

/-- src/app.py lines 994-1000 (`sql2`): update the CSM columns of the
aggregate row. -/
def updFinalCsm (c : String) (m : Int) (p s : String) (db : DB) : DB :=
  { db with final_computed_table := db.final_computed_table.map fun r =>
      if r.customer_name = c ∧ r.month_year = m then
        { r with csm_primary := p, csm_secondary := s }
      else r }

/-- The SET list of the `customer_mapping_table` update
(src/app.py lines 953-972). -/
def setConfigRow (parse : String → Option String) (form : ConfigForm)
    (uid_array : List String) (r : ConfigRow) : ConfigRow :=
  { r with
      customer_full_name := some form.customer_full_name.trim,
      csm_primary := form.csm_primary,
      csm_secondary := form.csm_secondary,
      customer_uid := uid_array,
      no_of_environments := form.no_of_envs,
      no_of_months := form.no_of_months,
      color_map_thresholds_availability := safe_json parse form.thr_availability,
      color_map_thresholds_users := safe_json parse form.thr_users,
      color_map_thresholds_storage := safe_json parse form.thr_storage,
      indicator_color_code_rules := safe_json parse form.indicator_colors,
      circle_color_code_rules := safe_json parse form.circle_colors,
      notes_availability := safe_json parse form.notes_availability,
      notes_users := safe_json parse form.notes_users,
      notes_storage := safe_json parse form.notes_storage,
      customer_note := form.customer_note }

/-- src/app.py lines 953-972 (`sql`): update the configuration row. -/
def updConfigTable (parse : String → Option String) (c : String) (m : Int)
    (form : ConfigForm) (uid_array : List String) (db : DB) : DB :=
  { db with customer_mapping_table := db.customer_mapping_table.map fun r =>
      if r.customer_name = c ∧ r.month_year = m then
        setConfigRow parse form uid_array r
      else r }

/-- src/app.py `save_config` (lines 872-1013): parse the eight
structured text fields (rejecting the upsert wholesale when any is
absent, empty or malformed), validate the three note sets, read and
extend the identifier list, then run the two updates in one
transaction. -/
def save_config (parse : String → Option String)
    (notesCheck : String → Bool × Option String) (c : String) (m : Int)
    (form : ConfigForm) (ok1 ok2 : Bool) (db : DB) : SaveResp × DB :=
  if (configJsonFields parse form).any Option.isNone then
    ({ success := false,
       message := "One or more JSON fields contain invalid JSON." }, db)
  else
    let na := (safe_json parse form.notes_availability).getD ""
    let nu := (safe_json parse form.notes_users).getD ""
    let ns := (safe_json parse form.notes_storage).getD ""
    if (notesCheck na).1 = false then
      ({ success := false,
         message := "Availability notes invalid: " ++ (notesCheck na).2.getD "" }, db)
    else if (notesCheck nu).1 = false then
      ({ success := false,
         message := "Users notes invalid: " ++ (notesCheck nu).2.getD "" }, db)
    else if (notesCheck ns).1 = false then
      ({ success := false,
         message := "Storage notes invalid: " ++ (notesCheck ns).2.getD "" }, db)
    else
      let uid_array := uidArrayOf c m form db
      match runStmts [stmt ok1 (updFinalCsm c m form.csm_primary form.csm_secondary),
                      stmt ok2 (updConfigTable parse c m form uid_array)] db with
      | some d => ({ success := true, message := "" }, d)
      | none => ({ success := false, message := dbErrorMessage }, db)

/-- C10: the configuration upsert is rejected in its entirety, with the
one "invalid JSON" error and no database write, whenever any of the
eight structured text fields is absent or empty — and, at the public
interface, an empty field is indistinguishable from a field whose text
fails to parse after normalization. -/
theorem claim_C10_empty_field_rejected (parse : String → Option String)
    (notesCheck : String → Bool × Option String) (c : String) (m : Int)
    (form : ConfigForm) (ok1 ok2 : Bool) (db : DB)
    (h : ∃ f ∈ [form.thr_availability, form.thr_users, form.thr_storage,
        form.indicator_colors, form.circle_colors, form.notes_availability,
        form.notes_users, form.notes_storage], f = none ∨ f = some "") :
    save_config parse notesCheck c m form ok1 ok2 db
        = ({ success := false,
             message := "One or more JSON fields contain invalid JSON." }, db)
      ∧ ∀ s : String, s ≠ "" → parse (pyNormalizeJson s) = none →
          save_config parse notesCheck c m
              { form with thr_availability := some s } ok1 ok2 db
            = save_config parse notesCheck c m
              { form with thr_availability := some "" } ok1 ok2 db := by
  constructor
  · obtain ⟨f, hf, hval⟩ := h
    have hnone : safe_json parse f = none := by
      rcases hval with rfl | rfl <;> simp [safe_json]
    have hany : (configJsonFields parse form).any Option.isNone = true := by
      fin_cases hf <;> simp [configJsonFields, hnone]
    simp [save_config, hany]
  · intro s hs hp
    have h1 : safe_json parse (some s) = none := by simp [safe_json, hs, hp]
    have h2 : safe_json parse (some "") = none := by simp [safe_json]
    have ha1 : (configJsonFields parse { form with thr_availability := some s }).any
        Option.isNone = true := by
      simp [configJsonFields, h1]
    have ha2 : (configJsonFields parse { form with thr_availability := some "" }).any
        Option.isNone = true := by
      simp [configJsonFields, h2]
    simp [save_config, ha1, ha2]

/-- Witness for C10: a form with every structured field absent is
rejected with the "invalid JSON" message and no write. -/
theorem claim_C10_witness :
    save_config (fun _ => none) (fun _ => (true, none)) "A" 1 {} true true {}
      = ({ success := false,
           message := "One or more JSON fields contain invalid JSON." }, {}) :=
  (claim_C10_empty_field_rejected (fun _ => none) (fun _ => (true, none)) "A" 1 {}
    true true {} ⟨none, by simp, Or.inl rfl⟩).1

/-! ## Record creation (src/app.py `insert_record`) -/

/-- The `mode = "config"` payload (src/app.py lines 1050-1054). -/
structure ConfigInsertForm where
  csm_primary : String := ""
  csm_secondary : String := ""
  no_of_months : Int := 6
  no_of_environments : Int := 2

/-- src/app.py lines 1069-1083: upsert of the configuration row
(`ON CONFLICT ... DO UPDATE` on the CSM/environment/window columns). -/
def upsertConfigRow (c : String) (m : Int) (csm1 csm2 : String)
    (envs months : Int) (db : DB) : DB :=
  if db.customer_mapping_table.any (cfgKey c m) then
    { db with customer_mapping_table := db.customer_mapping_table.map fun r =>
        if r.customer_name = c ∧ r.month_year = m then
          { r with csm_primary := csm1, csm_secondary := csm2,
                   no_of_environments := envs, no_of_months := months }
        else r }
  else
    { db with customer_mapping_table := db.customer_mapping_table
        ++ [{ customer_name := c, month_year := m, csm_primary := csm1,
              csm_secondary := csm2, no_of_environments := envs,
              no_of_months := months }] }

/-- src/app.py lines 1086-1090: zero-valued availability row,
`ON CONFLICT DO NOTHING`. -/
def insertAvailZero (c : String) (m : Int) (db : DB) : DB :=
  if db.availability_table.any (availKey c m) then db
  else { db with availability_table := db.availability_table
      ++ [{ customer_name := c, month_year := m }] }

/-- src/app.py lines 1093-1101: zero-valued users row,
`ON CONFLICT DO NOTHING`. -/
def insertUsersZero (c : String) (m : Int) (db : DB) : DB :=
  if db.users_table.any (usersKey c m) then db
  else { db with users_table := db.users_table
      ++ [{ customer_name := c, month_year := m }] }

/-- src/app.py lines 1104-1112: zero-valued storage row,
`ON CONFLICT DO NOTHING`. -/
def insertStorageZero (c : String) (m : Int) (db : DB) : DB :=
  if db.storage_table.any (storageKey c m) then db
  else { db with storage_table := db.storage_table
      ++ [{ customer_name := c, month_year := m }] }

/-- src/app.py lines 1115-1135: zero-valued tickets row,
`ON CONFLICT DO NOTHING`. -/
def insertTicketsZero (c : String) (m : Int) (db : DB) : DB :=
  if db.tickets_computed_table.any (ticketsKey c m) then db
  else { db with tickets_computed_table := db.tickets_computed_table
      ++ [{ customer_name := c, month_year := m }] }

/-- src/app.py lines 1138-1231: insert the aggregate row as the
COALESCEd full outer join of the four one-row domain selections,
guarded by `WHERE NOT EXISTS` on the aggregate key; the join yields no
row (hence no insert) only when all four domain rows are absent. -/
def insertFinalFromDomains (c : String) (m : Int) (csm1 csm2 : String)
    (db : DB) : DB :=
  if db.final_computed_table.any (aggKey c m) then db
  else
    let a := db.availability_table.find? (availKey c m)
    let u := db.users_table.find? (usersKey c m)
    let s := db.storage_table.find? (storageKey c m)
    let t := db.tickets_computed_table.find? (ticketsKey c m)
    if a.isNone ∧ u.isNone ∧ s.isNone ∧ t.isNone then db
    else
      { db with final_computed_table := db.final_computed_table
          ++ [{ customer_name := c, month_year := m,
                csm_primary := csm1, csm_secondary := csm2,
                updated_availability := ((a.map (·.updated_availability)).getD 0),
                updated_target := ((a.map (·.updated_target)).getD 0),
                updated_prod_limit := ((u.map (·.updated_prod_limit)).getD 0),
                updated_test_limit := ((u.map (·.updated_test_limit)).getD 0),
                updated_dev_limit := ((u.map (·.updated_dev_limit)).getD 0),
                updated_prod_used := ((u.map (·.updated_prod_used)).getD 0),
                updated_test_used := ((u.map (·.updated_test_used)).getD 0),
                updated_dev_used := ((u.map (·.updated_dev_used)).getD 0),
                updated_prod_target_storage_gb :=
                  ((s.map (·.updated_prod_target_storage_gb)).getD 0),
                updated_test_target_storage_gb :=
                  ((s.map (·.updated_test_target_storage_gb)).getD 0),
                updated_dev_target_storage_gb :=
                  ((s.map (·.updated_dev_target_storage_gb)).getD 0),
                updated_prod_storage_gb := ((s.map (·.updated_prod_storage_gb)).getD 0),
                updated_test_storage_gb := ((s.map (·.updated_test_storage_gb)).getD 0),
                updated_dev_storage_gb := ((s.map (·.updated_dev_storage_gb)).getD 0),
                updated_tickets_opened := ((t.map (·.updated_tickets_opened)).getD 0),
                updated_tickets_closed := ((t.map (·.updated_tickets_closed)).getD 0),
                updated_tickets_backlog := ((t.map (·.updated_tickets_backlog)).getD 0),
                updated_current_opened_tickets :=
                  ((t.map (·.updated_current_opened_tickets)).getD 0),
                updated_current_closed_tickets :=
                  ((t.map (·.updated_current_closed_tickets)).getD 0),
                updated_current_backlog_tickets :=
                  ((t.map (·.updated_current_backlog_tickets)).getD 0),
                updated_p1_opened := ((t.map (·.updated_p1_opened)).getD 0),
                updated_p1_closed := ((t.map (·.updated_p1_closed)).getD 0),
                updated_p1_backlog := ((t.map (·.updated_p1_backlog)).getD 0),
                updated_p2_opened := ((t.map (·.updated_p2_opened)).getD 0),
                updated_p2_closed := ((t.map (·.updated_p2_closed)).getD 0),
                updated_p2_backlog := ((t.map (·.updated_p2_backlog)).getD 0),
                updated_p3_opened := ((t.map (·.updated_p3_opened)).getD 0),
                updated_p3_closed := ((t.map (·.updated_p3_closed)).getD 0),
                updated_p3_backlog := ((t.map (·.updated_p3_backlog)).getD 0),
                updated_p4_opened := ((t.map (·.updated_p4_opened)).getD 0),
                updated_p4_closed := ((t.map (·.updated_p4_closed)).getD 0),
                updated_p4_backlog := ((t.map (·.updated_p4_backlog)).getD 0),
                customer_full_name := none, customer_uid := [] }] }

/-- src/app.py `insert_record`, `mode = "config"` (lines 1050-1238):
fail when the customer is configured for any month; otherwise upsert
the configuration row, insert zero-valued domain rows, and build the
aggregate row from them, in one transaction. -/
def insert_record_config (c : String) (m : Int) (form : ConfigInsertForm)
    (ok1 ok2 ok3 ok4 ok5 ok6 : Bool) (db : DB) : SaveResp × DB :=
  if db.customer_mapping_table.any (fun r => r.customer_name = c) then
    ({ success := false,
       message := "Customer \x27" ++ c ++ "\x27 already exists." }, db)
  else
    let csm1 := form.csm_primary.trim
    let csm2 := if form.csm_secondary.trim = "" then csm1 else form.csm_secondary.trim
    match runStmts
        [stmt ok1 (upsertConfigRow c m csm1 csm2 form.no_of_environments form.no_of_months),
         stmt ok2 (insertAvailZero c m),
         stmt ok3 (insertUsersZero c m),
         stmt ok4 (insertStorageZero c m),
         stmt ok5 (insertTicketsZero c m),
         stmt ok6 (insertFinalFromDomains c m csm1 csm2)] db with
    | some d => ({ success := true, message := "Configuration saved successfully." }, d)
    | none => ({ success := false, message := dbErrorMessage }, db)

/-- The `mode = "table"` payload after the `to_float`/`to_int`
conversions (src/app.py lines 1277-1302); availability and target are
the raw percentages, divided by 100 on insert. -/
structure TableForm where
  updated_availability : ℚ := 0
  updated_target : ℚ := 0
  updated_prod_limit : Int := 0
  updated_test_limit : Int := 0
  updated_dev_limit : Int := 0
  updated_prod_used : Int := 0
  updated_test_used : Int := 0
  updated_dev_used : Int := 0
  updated_prod_target_storage_gb : ℚ := 0
  updated_test_target_storage_gb : ℚ := 0
  updated_dev_target_storage_gb : ℚ := 0
  updated_prod_storage_gb : ℚ := 0
  updated_test_storage_gb : ℚ := 0
  updated_dev_storage_gb : ℚ := 0
  updated_tickets_opened : Int := 0
  updated_tickets_closed : Int := 0
  updated_tickets_backlog : Int := 0
  updated_current_opened_tickets : Int := 0
  updated_current_closed_tickets : Int := 0
  updated_current_backlog_tickets : Int := 0

/-- The aggregate row inserted by table mode (src/app.py lines
1305-1337). -/
def aggRowOfPayload (c : String) (m : Int) (csm1 csm2 : String)
    (f : TableForm) : AggRow :=
  { customer_name := c, month_year := m,
    csm_primary := csm1, csm_secondary := csm2,
    updated_availability := f.updated_availability / 100,
    updated_target := f.updated_target / 100,
    updated_prod_limit := f.updated_prod_limit,
    updated_test_limit := f.updated_test_limit,
    updated_dev_limit := f.updated_dev_limit,
    updated_prod_used := f.updated_prod_used,
    updated_test_used := f.updated_test_used,
    updated_dev_used := f.updated_dev_used,
    updated_prod_target_storage_gb := f.updated_prod_target_storage_gb,
    updated_test_target_storage_gb := f.updated_test_target_storage_gb,
    updated_dev_target_storage_gb := f.updated_dev_target_storage_gb,
    updated_prod_storage_gb := f.updated_prod_storage_gb,
    updated_test_storage_gb := f.updated_test_storage_gb,
    updated_dev_storage_gb := f.updated_dev_storage_gb,
    updated_tickets_opened := f.updated_tickets_opened,
    updated_tickets_closed := f.updated_tickets_closed,
    updated_tickets_backlog := f.updated_tickets_backlog,
    updated_current_opened_tickets := f.updated_current_opened_tickets,
    updated_current_closed_tickets := f.updated_current_closed_tickets,
    updated_current_backlog_tickets := f.updated_current_backlog_tickets }

/-- The availability row inserted by table mode (src/app.py lines
1350-1360). -/
def availRowOfPayload (c : String) (m : Int) (f : TableForm) : AvailRow :=
  { customer_name := c, month_year := m,
    total_availability := f.updated_availability / 100,
    updated_availability := f.updated_availability / 100,
    target := f.updated_target / 100,
    updated_target := f.updated_target / 100 }

/-- The users row inserted by table mode (src/app.py lines 1363-1382):
base and `updated_*` columns receive the same values. -/
def usersRowOfPayload (c : String) (m : Int) (f : TableForm) : UsersRow :=
  { customer_name := c, month_year := m,
    prod_limit := f.updated_prod_limit, prod_used := f.updated_prod_used,
    test_limit := f.updated_test_limit, test_used := f.updated_test_used,
    dev_limit := f.updated_dev_limit, dev_used := f.updated_dev_used,
    updated_prod_limit := f.updated_prod_limit,
    updated_prod_used := f.updated_prod_used,
    updated_test_limit := f.updated_test_limit,
    updated_test_used := f.updated_test_used,
    updated_dev_limit := f.updated_dev_limit,
    updated_dev_used := f.updated_dev_used }

/-- The storage row inserted by table mode (src/app.py lines
1385-1404). -/
def storageRowOfPayload (c : String) (m : Int) (f : TableForm) : StorageRow :=
  { customer_name := c, month_year := m,
    prod_target_storage_gb := f.updated_prod_target_storage_gb,
    prod_storage_gb := f.updated_prod_storage_gb,
    test_target_storage_gb := f.updated_test_target_storage_gb,
    test_storage_gb := f.updated_test_storage_gb,
    dev_target_storage_gb := f.updated_dev_target_storage_gb,
    dev_storage_gb := f.updated_dev_storage_gb,
    updated_prod_target_storage_gb := f.updated_prod_target_storage_gb,
    updated_prod_storage_gb := f.updated_prod_storage_gb,
    updated_test_target_storage_gb := f.updated_test_target_storage_gb,
    updated_test_storage_gb := f.updated_test_storage_gb,
    updated_dev_target_storage_gb := f.updated_dev_target_storage_gb,
    updated_dev_storage_gb := f.updated_dev_storage_gb }

/-- The tickets row inserted by table mode (src/app.py lines
1407-1426). -/
def ticketsRowOfPayload (c : String) (m : Int) (f : TableForm) : TicketsRow :=
  { customer_name := c, month_year := m,
    tickets_opened := f.updated_tickets_opened,
    tickets_closed := f.updated_tickets_closed,
    tickets_backlog := f.updated_tickets_backlog,
    updated_tickets_opened := f.updated_tickets_opened,
    updated_tickets_closed := f.updated_tickets_closed,
    updated_tickets_backlog := f.updated_tickets_backlog,
    current_opened_tickets := f.updated_current_opened_tickets,
    current_closed_tickets := f.updated_current_closed_tickets,
    current_backlog_tickets := f.updated_current_backlog_tickets,
    updated_current_opened_tickets := f.updated_current_opened_tickets,
    updated_current_closed_tickets := f.updated_current_closed_tickets,
    updated_current_backlog_tickets := f.updated_current_backlog_tickets }

/-- The full-success effect of table mode: all five rows appended. -/
def insertTableHappy (c : String) (m : Int) (f : TableForm) (db : DB) : DB :=
  match db.customer_mapping_table.find? (cfgKey c m) with
  | none => db
  | some mrow =>
      { db with
          final_computed_table := db.final_computed_table
            ++ [aggRowOfPayload c m mrow.csm_primary mrow.csm_secondary f],
          availability_table := db.availability_table ++ [availRowOfPayload c m f],
          users_table := db.users_table ++ [usersRowOfPayload c m f],
          storage_table := db.storage_table ++ [storageRowOfPayload c m f],
          tickets_computed_table := db.tickets_computed_table
            ++ [ticketsRowOfPayload c m f] }

/-- src/app.py `insert_record`, `mode = "table"` (lines 1241-1433):
fail when the configuration row is missing; insert the aggregate row
with `ON CONFLICT DO NOTHING` and fail (rolling back) when it already
existed; then plain-insert the four domain rows (a duplicate key there
aborts the transaction) and commit. -/
def insert_record_table (c : String) (m : Int) (f : TableForm)
    (okF okA okU okS okT : Bool) (db : DB) : SaveResp × DB :=
  match db.customer_mapping_table.find? (cfgKey c m) with
  | none =>
      ({ success := false,
         message := "Configuration missing! Please enter configuration first." }, db)
  | some mrow =>
      if okF = false then ({ success := false, message := dbErrorMessage }, db)
      else if db.final_computed_table.any (aggKey c m) then
        ({ success := false,
           message := "Table data already exists for this customer & month." }, db)
      else
        let db1 := { db with final_computed_table := db.final_computed_table
            ++ [aggRowOfPayload c m mrow.csm_primary mrow.csm_secondary f] }
        if okA = false ∨ db1.availability_table.any (availKey c m) then
          ({ success := false, message := dbErrorMessage }, db)
        else
          let db2 := { db1 with availability_table := db1.availability_table
              ++ [availRowOfPayload c m f] }
          if okU = false ∨ db2.users_table.any (usersKey c m) then
            ({ success := false, message := dbErrorMessage }, db)
          else
            let db3 := { db2 with users_table := db2.users_table
                ++ [usersRowOfPayload c m f] }
            if okS = false ∨ db3.storage_table.any (storageKey c m) then
              ({ success := false, message := dbErrorMessage }, db)
            else
              let db4 := { db3 with storage_table := db3.storage_table
                  ++ [storageRowOfPayload c m f] }
              if okT = false ∨ db4.tickets_computed_table.any (ticketsKey c m) then
                ({ success := false, message := dbErrorMessage }, db)
              else
                let db5 := { db4 with tickets_computed_table :=
                    db4.tickets_computed_table ++ [ticketsRowOfPayload c m f] }
                ({ success := true, message := "Table data inserted successfully!" }, db5)

/-- C5: table-mode insert fails writing nothing when the configuration
row is missing; fails with the "already exists" message and no new rows
when the aggregate row exists; hence with a configuration present and
no data rows, inserting twice succeeds the first time (writing all
five rows) and fails the second time with the "already exists" message
and an unchanged store. -/
theorem claim_C5_table_insert_guards (c : String) (m : Int) (f : TableForm)
    (db : DB) :
    (db.customer_mapping_table.find? (cfgKey c m) = none →
      ∀ okF okA okU okS okT,
        insert_record_table c m f okF okA okU okS okT db
          = ({ success := false,
               message := "Configuration missing! Please enter configuration first." },
             db))
    ∧ (∀ mrow, db.customer_mapping_table.find? (cfgKey c m) = some mrow →
        db.final_computed_table.any (aggKey c m) = true →
        ∀ okA okU okS okT,
          insert_record_table c m f true okA okU okS okT db
            = ({ success := false,
                 message := "Table data already exists for this customer & month." },
               db))
    ∧ (∀ mrow, db.customer_mapping_table.find? (cfgKey c m) = some mrow →
        db.final_computed_table.any (aggKey c m) = false →
        db.availability_table.any (availKey c m) = false →
        db.users_table.any (usersKey c m) = false →
        db.storage_table.any (storageKey c m) = false →
        db.tickets_computed_table.any (ticketsKey c m) = false →
        insert_record_table c m f true true true true true db
            = ({ success := true, message := "Table data inserted successfully!" },
               insertTableHappy c m f db)
          ∧ insert_record_table c m f true true true true true
              (insert_record_table c m f true true true true true db).2
            = ({ success := false,
                 message := "Table data already exists for this customer & month." },
               (insert_record_table c m f true true true true true db).2)) := by
  refine ⟨?_, ?_, ?_⟩
  · intro h okF okA okU okS okT
    simp [insert_record_table, h]
  · intro mrow hm hany okA okU okS okT
    simp [insert_record_table, hm, hany]
  · intro mrow hm h1 h2 h3 h4 h5
    have hfirst : insert_record_table c m f true true true true true db
        = ({ success := true, message := "Table data inserted successfully!" },
           insertTableHappy c m f db) := by
      simp [insert_record_table, insertTableHappy, hm, h1, h2, h3, h4, h5]
    refine ⟨hfirst, ?_⟩
    rw [hfirst]
    have hm2 : (insertTableHappy c m f db).customer_mapping_table.find?
        (cfgKey c m) = some mrow := by
      simp [insertTableHappy, hm]
    have hany2 : (insertTableHappy c m f db).final_computed_table.any
        (aggKey c m) = true := by
      simp [insertTableHappy, hm, aggRowOfPayload, aggKey]
    simp [insert_record_table, hm2, hany2]

/-- Witness for C5: with customer "A" configured for month 1 and no
data rows, the first table insert succeeds and the second fails with
the "already exists" message, leaving the store as after the first. -/
theorem claim_C5_witness :
    (insert_record_table "A" 1 {} true true true true true
        { customer_mapping_table := [{ customer_name := "A", month_year := 1 }] }).1.success
        = true
      ∧ (insert_record_table "A" 1 {} true true true true true
          (insert_record_table "A" 1 {} true true true true true
            { customer_mapping_table := [{ customer_name := "A", month_year := 1 }] }).2).1.message
        = "Table data already exists for this customer & month." := by
  have h := (claim_C5_table_insert_guards "A" 1 {}
      { customer_mapping_table := [{ customer_name := "A", month_year := 1 }] }).2.2
    { customer_name := "A", month_year := 1 } (by rfl) rfl rfl rfl rfl rfl
  exact ⟨by rw [h.1], by rw [h.2]⟩

/-! ## Record deletion (src/app.py `delete_record`) -/

/-- The case-insensitive, whitespace-insensitive key match of the
`customer_mapping_table` delete (src/app.py line 1736). -/
def cfgKeyCI (c : String) (m : Int) (r : ConfigRow) : Bool :=
  r.customer_name.trim.toLower = c.trim.toLower ∧ r.month_year = m

/-- Matching-row counts per table (the `cur.rowcount` of each DELETE). -/
def countAgg (c : String) (m : Int) (db : DB) : Nat :=
  db.final_computed_table.countP (aggKey c m)

def countAvail (c : String) (m : Int) (db : DB) : Nat :=
  db.availability_table.countP (availKey c m)

def countUsers (c : String) (m : Int) (db : DB) : Nat :=
  db.users_table.countP (usersKey c m)

def countStorage (c : String) (m : Int) (db : DB) : Nat :=
  db.storage_table.countP (storageKey c m)

def countTickets (c : String) (m : Int) (db : DB) : Nat :=
  db.tickets_computed_table.countP (ticketsKey c m)

def countCfgCI (c : String) (m : Int) (db : DB) : Nat :=
  db.customer_mapping_table.countP (cfgKeyCI c m)

/-- The six DELETE statements (src/app.py lines 1730-1738). -/
def delAgg (c : String) (m : Int) (db : DB) : DB :=
  { db with final_computed_table :=
      db.final_computed_table.filter fun r => !(aggKey c m r) }

def delAvail (c : String) (m : Int) (db : DB) : DB :=
  { db with availability_table :=
      db.availability_table.filter fun r => !(availKey c m r) }

def delUsers (c : String) (m : Int) (db : DB) : DB :=
  { db with users_table := db.users_table.filter fun r => !(usersKey c m r) }

def delStorage (c : String) (m : Int) (db : DB) : DB :=
  { db with storage_table := db.storage_table.filter fun r => !(storageKey c m r) }

def delTickets (c : String) (m : Int) (db : DB) : DB :=
  { db with tickets_computed_table :=
      db.tickets_computed_table.filter fun r => !(ticketsKey c m r) }

def delCfg (c : String) (m : Int) (db : DB) : DB :=
  { db with customer_mapping_table :=
      db.customer_mapping_table.filter fun r => !(cfgKeyCI c m r) }

/-- Response of `delete_record`: success flag, message and the
per-table deleted-row counts (`none` = that DELETE raised and its
count was recorded as an error string). -/
structure DeleteResp where
  success : Bool
  message : String
  deleted_counts : List (String × Option Nat) := []

/-- Per-statement state of the deletion loop: buffered store, aborted
flag of the transaction, counts so far. -/
structure DelSt where
  buf : DB
  aborted : Bool
  counts : List (String × Option Nat)

/-- One iteration of the deletion loop (src/app.py lines 1740-1749):
a statement on an aborted transaction, or an externally failing one,
records an error for its table and leaves the transaction aborted;
otherwise the count of matching rows is recorded and the rows go. -/
def delStep (name : String) (ok : Bool) (cnt : DB → Nat) (eff : DB → DB)
    (st : DelSt) : DelSt :=
  if st.aborted ∨ ok = false then
    { st with aborted := true, counts := st.counts ++ [(name, none)] }
  else
    { buf := eff st.buf, aborted := false,
      counts := st.counts ++ [(name, some (cnt st.buf))] }

/-- src/app.py lines 1762-1769: sum of the numeric per-table counts,
skipping error strings. -/
def sumCounts (l : List (String × Option Nat)) : Nat :=
  l.foldl (fun acc p => match p.2 with | some n => acc + n | none => acc) 0

/-- The response builder of `delete_record` (src/app.py lines
1761-1784): a zero total of numeric deleted counts is a failure even
without any per-table error; otherwise success with the counts. -/
def deleteResponse (c : String) (m : Int)
    (counts : List (String × Option Nat)) : DeleteResp :=
  if sumCounts counts = 0 then
    { success := false,
      message := "No rows were deleted for " ++ c ++ " - " ++ toString m
        ++ ". Please verify the record exists.",
      deleted_counts := counts }
  else
    { success := true,
      message := "Record for " ++ c ++ " - " ++ toString m
        ++ " has been successfully deleted from " ++ toString (sumCounts counts)
        ++ " row(s).",
      deleted_counts := counts }

/-- The six-statement deletion loop (src/app.py lines 1730-1749), in
source order: aggregate, availability, users, storage, tickets,
configuration. -/
def delChain (c : String) (m : Int) (ok1 ok2 ok3 ok4 ok5 ok6 : Bool)
    (db : DB) : DelSt :=
  delStep "customer_mapping_table" ok6 (countCfgCI c m) (delCfg c m)
    (delStep "tickets_computed_table" ok5 (countTickets c m) (delTickets c m)
      (delStep "storage_table" ok4 (countStorage c m) (delStorage c m)
        (delStep "users_table" ok3 (countUsers c m) (delUsers c m)
          (delStep "availability_table" ok2 (countAvail c m) (delAvail c m)
            (delStep "final_computed_table" ok1 (countAgg c m) (delAgg c m)
              { buf := db, aborted := false, counts := [] })))))

/-- src/app.py `delete_record` (lines 1581-1807): early not-found
response when no aggregate row matches; otherwise the six DELETEs with
per-table error capture, one commit (a rollback when the transaction
aborted), and the zero-total-guarded response. -/
def delete_record (c : String) (m : Int) (ok1 ok2 ok3 ok4 ok5 ok6 : Bool)
    (db : DB) : DeleteResp × DB :=
  match db.final_computed_table.find? (aggKey c m) with
  | none =>
      ({ success := false,
         message := "Record for " ++ c ++ " - " ++ toString m ++ " not found." }, db)
  | some _ =>
      let st := delChain c m ok1 ok2 ok3 ok4 ok5 ok6 db
      (deleteResponse c m st.counts, if st.aborted then db else st.buf)

theorem deleteResponse_deleted_counts (c : String) (m : Int)
    (counts : List (String × Option Nat)) :
    (deleteResponse c m counts).deleted_counts = counts := by
  unfold deleteResponse
  split <;> rfl

theorem delChain_allok_counts (c : String) (m : Int) (db : DB) :
    (delChain c m true true true true true true db).counts
      = [("final_computed_table", some (countAgg c m db)),
         ("availability_table", some (countAvail c m db)),
         ("users_table", some (countUsers c m db)),
         ("storage_table", some (countStorage c m db)),
         ("tickets_computed_table", some (countTickets c m db)),
         ("customer_mapping_table", some (countCfgCI c m db))] := rfl

/-- C6: `delete_record` reports failure whenever the sum of the numeric
per-table deleted counts is zero (whatever the per-statement outcomes);
and on a fault-free deletion of an existing record it reports success
with the exact per-table counts of matching rows, whose total is
positive. -/
theorem claim_C6_zero_total_is_failure (c : String) (m : Int)
    (ok1 ok2 ok3 ok4 ok5 ok6 : Bool) (db : DB) :
    (sumCounts (delete_record c m ok1 ok2 ok3 ok4 ok5 ok6 db).1.deleted_counts = 0 →
      (delete_record c m ok1 ok2 ok3 ok4 ok5 ok6 db).1.success = false)
    ∧ (∀ r, db.final_computed_table.find? (aggKey c m) = some r →
        (delete_record c m true true true true true true db).1.success = true
        ∧ (delete_record c m true true true true true true db).1.deleted_counts
          = [("final_computed_table", some (countAgg c m db)),
             ("availability_table", some (countAvail c m db)),
             ("users_table", some (countUsers c m db)),
             ("storage_table", some (countStorage c m db)),
             ("tickets_computed_table", some (countTickets c m db)),
             ("customer_mapping_table", some (countCfgCI c m db))]
        ∧ 0 < sumCounts
            (delete_record c m true true true true true true db).1.deleted_counts) := by
  constructor
  · intro h
    rcases hf : db.final_computed_table.find? (aggKey c m) with _ | r
    · simp [delete_record, hf]
    · simp only [delete_record, hf] at h ⊢
      rw [deleteResponse_deleted_counts] at h
      simp [deleteResponse, h]
  · intro r hf
    have h1 : (delete_record c m true true true true true true db).1
        = deleteResponse c m (delChain c m true true true true true true db).counts := by
      simp only [delete_record, hf]
    have hpos : 0 < countAgg c m db :=
      List.countP_pos_iff.mpr ⟨r, List.mem_of_find?_eq_some hf, List.find?_some hf⟩
    have hsum : 0 < sumCounts (delChain c m true true true true true true db).counts := by
      rw [delChain_allok_counts]
      simp [sumCounts]
      omega
    refine ⟨?_, ?_, ?_⟩
    · rw [h1]
      simp [deleteResponse, Nat.pos_iff_ne_zero.mp hsum]
    · rw [h1, deleteResponse_deleted_counts, delChain_allok_counts]
    · rw [h1, deleteResponse_deleted_counts]
      exact hsum

/-- Witness for C6: deleting the single existing record of customer
"A" at month 1 succeeds; the same deletion with the first DELETE
failing (zero numeric total) reports failure. -/
theorem claim_C6_witness :
    (delete_record "A" 1 true true true true true true
        { final_computed_table := [{ customer_name := "A", month_year := 1 }] }).1.success
      = true
      ∧ (delete_record "A" 1 false true true true true true
          { final_computed_table := [{ customer_name := "A", month_year := 1 }] }).1.success
      = false := by
  have h := claim_C6_zero_total_is_failure "A" 1 false true true true true true
    { final_computed_table := [{ customer_name := "A", month_year := 1 }] }
  exact ⟨(h.2 { customer_name := "A", month_year := 1 } rfl).1, h.1 rfl⟩

/-! ## C4: one all-or-nothing transaction per mutating operation -/

/-- C4: every mutating operation — the four domain edits, both insert
modes, deletion and the configuration upsert — commits either all of
its multi-table writes or none: when any statement fails the stored
state is unchanged, and in every case the stored state is either the
original or the full effect of all statements of the operation, never a
partial one. -/
theorem claim_C4_atomicity :
    (∀ (c : String) (m : Int) (a t : ℚ) (ok1 ok2 : Bool) (db : DB),
      ((ok1 = false ∨ ok2 = false) → (save_availability c m a t ok1 ok2 db).2 = db)
      ∧ ((save_availability c m a t ok1 ok2 db).2 = db
        ∨ (save_availability c m a t ok1 ok2 db).2
          = updAvailabilityTable c m (a / 100) (t / 100)
              (updFinalAvailability c m (a / 100) (t / 100) db)))
    ∧ (∀ (c : String) (m : Int) (f : UsersForm) (ok1 ok2 ok3 ok4 : Bool) (db : DB),
      ((ok1 = false ∨ ok2 = false ∨ ok3 = false ∨ ok4 = false) →
        (save_users c m f ok1 ok2 ok3 ok4 db).2 = db)
      ∧ ((save_users c m f ok1 ok2 ok3 ok4 db).2 = db
        ∨ (save_users c m f ok1 ok2 ok3 ok4 db).2
          = updUsersTableFuture c m f (updUsersTableMonth c m f
              (updFinalUsersFuture c m f (updFinalUsersMonth c m f db)))))
    ∧ (∀ (c : String) (m : Int) (f : StorageForm) (ok1 ok2 ok3 ok4 : Bool) (db : DB),
      ((ok1 = false ∨ ok2 = false ∨ ok3 = false ∨ ok4 = false) →
        (save_storage c m f ok1 ok2 ok3 ok4 db).2 = db)
      ∧ ((save_storage c m f ok1 ok2 ok3 ok4 db).2 = db
        ∨ (save_storage c m f ok1 ok2 ok3 ok4 db).2
          = updStorageTableFuture c m f (updStorageTableMonth c m f
              (updFinalStorageFuture c m f (updFinalStorageMonth c m f db)))))
    ∧ (∀ (c : String) (m : Int) (f : TicketsForm) (ok1 ok2 : Bool) (db : DB),
      ((ok1 = false ∨ ok2 = false) → (save_tickets c m f ok1 ok2 db).2 = db)
      ∧ ((save_tickets c m f ok1 ok2 db).2 = db
        ∨ (save_tickets c m f ok1 ok2 db).2
          = updTicketsTable c m f (updFinalTickets c m f db)))
    ∧ (∀ (parse : String → Option String) (notesCheck : String → Bool × Option String)
        (c : String) (m : Int) (form : ConfigForm) (ok1 ok2 : Bool) (db : DB),
      ((ok1 = false ∨ ok2 = false) →
        (save_config parse notesCheck c m form ok1 ok2 db).2 = db)
      ∧ ((save_config parse notesCheck c m form ok1 ok2 db).2 = db
        ∨ (save_config parse notesCheck c m form ok1 ok2 db).2
          = updConfigTable parse c m form (uidArrayOf c m form db)
              (updFinalCsm c m form.csm_primary form.csm_secondary db)))
    ∧ (∀ (c : String) (m : Int) (form : ConfigInsertForm)
        (ok1 ok2 ok3 ok4 ok5 ok6 : Bool) (db : DB),
      ((ok1 = false ∨ ok2 = false ∨ ok3 = false ∨ ok4 = false ∨ ok5 = false
          ∨ ok6 = false) →
        (insert_record_config c m form ok1 ok2 ok3 ok4 ok5 ok6 db).2 = db)
      ∧ ((insert_record_config c m form ok1 ok2 ok3 ok4 ok5 ok6 db).2 = db
        ∨ ∃ csm1 csm2,
            (insert_record_config c m form ok1 ok2 ok3 ok4 ok5 ok6 db).2
              = insertFinalFromDomains c m csm1 csm2 (insertTicketsZero c m
                  (insertStorageZero c m (insertUsersZero c m (insertAvailZero c m
                    (upsertConfigRow c m csm1 csm2 form.no_of_environments
                      form.no_of_months db)))))))
    ∧ (∀ (c : String) (m : Int) (f : TableForm) (okF okA okU okS okT : Bool) (db : DB),
      ((okF = false ∨ okA = false ∨ okU = false ∨ okS = false ∨ okT = false) →
        (insert_record_table c m f okF okA okU okS okT db).2 = db)
      ∧ ((insert_record_table c m f okF okA okU okS okT db).2 = db
        ∨ (insert_record_table c m f okF okA okU okS okT db).2
          = insertTableHappy c m f db))
    ∧ (∀ (c : String) (m : Int) (ok1 ok2 ok3 ok4 ok5 ok6 : Bool) (db : DB),
      ((ok1 = false ∨ ok2 = false ∨ ok3 = false ∨ ok4 = false ∨ ok5 = false
          ∨ ok6 = false) →
        (delete_record c m ok1 ok2 ok3 ok4 ok5 ok6 db).2 = db)
      ∧ ((delete_record c m ok1 ok2 ok3 ok4 ok5 ok6 db).2 = db
        ∨ (delete_record c m ok1 ok2 ok3 ok4 ok5 ok6 db).2
          = delCfg c m (delTickets c m (delStorage c m (delUsers c m
              (delAvail c m (delAgg c m db))))))) := by
  refine ⟨?_, ?_, ?_, ?_, ?_, ?_, ?_, ?_⟩
  · intro c m a t ok1 ok2 db
    cases ok1 <;> cases ok2 <;>
      by_cases hv : a > 100 ∨ t > 100 <;>
        simp [save_availability, runStmts, stmt, hv]
  · intro c m f ok1 ok2 ok3 ok4 db
    cases ok1 <;> cases ok2 <;> cases ok3 <;> cases ok4 <;>
      simp [save_users, runStmts, stmt]
  · intro c m f ok1 ok2 ok3 ok4 db
    cases ok1 <;> cases ok2 <;> cases ok3 <;> cases ok4 <;>
      simp [save_storage, runStmts, stmt]
  · intro c m f ok1 ok2 db
    cases ok1 <;> cases ok2 <;> simp [save_tickets, runStmts, stmt]
  · intro parse notesCheck c m form ok1 ok2 db
    cases ok1 <;> cases ok2 <;>
      simp [save_config, runStmts, stmt] <;>
        split_ifs <;> simp
  · intro c m form ok1 ok2 ok3 ok4 ok5 ok6 db
    unfold insert_record_config
    split_ifs <;>
      (cases ok1 <;> cases ok2 <;> cases ok3 <;> cases ok4 <;> cases ok5 <;>
        cases ok6 <;> simp [runStmts, stmt] <;>
          exact Or.inr ⟨_, _, rfl⟩)
  · intro c m f okF okA okU okS okT db
    rcases hm : db.customer_mapping_table.find? (cfgKey c m) with _ | mrow
    · simp [insert_record_table, hm]
    · simp only [insert_record_table, hm]
      split_ifs <;> simp_all [insertTableHappy, hm]
  · intro c m ok1 ok2 ok3 ok4 ok5 ok6 db
    rcases hf : db.final_computed_table.find? (aggKey c m) with _ | r
    · simp [delete_record, hf]
    · simp only [delete_record, hf]
      cases ok1 <;> cases ok2 <;> cases ok3 <;> cases ok4 <;> cases ok5 <;>
        cases ok6 <;> simp [delChain, delStep]

/-- Witness for C4: a users edit whose second statement fails leaves
the empty store unchanged. -/
theorem claim_C4_witness :
    (save_users "A" 1 ⟨1, 1, 1, 1, 0, 0⟩ true false true true {}).2 = ({} : DB) :=
  (claim_C4_atomicity.2.1 "A" 1 ⟨1, 1, 1, 1, 0, 0⟩ true false true true {}).1
    (Or.inr (Or.inl rfl))

/-! ## Report Data Assembler (src/ppt_generator.py `prepare_data_dictionary`)

The assembler is a pure function of the loaded aggregate rows and the
configuration row.  `month_year` values are the integer month index;
`sorted(df[...].unique())` becomes dedup-then-sort and
the pandas sort by month becomes a stable sort of the rows by
month.  A chart block is its category labels plus named numeric
series. -/

/-- Order on aggregate rows by month (pandas `sort_values`). -/
def byMonth (a b : AggRow) : Prop := a.month_year ≤ b.month_year

instance : DecidableRel byMonth := fun a b => Int.decLe a.month_year b.month_year

instance : IsTotal AggRow byMonth := ⟨fun a b => Int.le_total a.month_year b.month_year⟩

instance : IsTrans AggRow byMonth := ⟨fun _ _ _ h1 h2 => le_trans h1 h2⟩

/-- Rows sorted by month (pandas sort by month_year). -/
def sortRowsByMonth (rows : List AggRow) : List AggRow :=
  List.insertionSort byMonth rows

/-- Unique months, sorted ascending (sorted unique month_year). -/
def chartMonths (rows : List AggRow) : List Int :=
  List.insertionSort (· ≤ ·) ((rows.map (·.month_year)).dedup)

/-- Month abbreviations of the %b format. -/
def monthAbbrev (k : Nat) : String :=
  ["Jan", "Feb", "Mar", "Apr", "May", "Jun", "Jul", "Aug", "Sep", "Oct",
   "Nov", "Dec"].getD k ""

/-- Short month-year label (strftime %b-%y) on a month index
(year * 12 + month). -/
def monthLabel (i : Int) : String :=
  let y := (i.ediv 12).emod 100
  monthAbbrev (i.emod 12).toNat ++ "-"
    ++ (if y < 10 then "0" ++ toString y else toString y)

/-- A chart block: category labels and named numeric series. -/
structure Chart where
  months : List String
  series : List (String × List ℚ)

/-- src/ppt_generator.py lines 116-120: the availability chart
(values scaled to percentages). -/
def availabilityChart (rows : List AggRow) : Chart :=
  { months := (chartMonths rows).map monthLabel,
    series :=
      [("Availability", (sortRowsByMonth rows).map fun r => r.updated_availability * 100),
       ("SLA", (sortRowsByMonth rows).map fun r => r.updated_target * 100)] }

/-- src/ppt_generator.py lines 155-166: the user-counts chart; the
"Dev" series is added exactly when the environment count is 3, and
"Licenses Available" is appended afterwards in both cases. -/
def userCountsChart (envs : Int) (rows : List AggRow) : Chart :=
  { months := (chartMonths rows).map monthLabel,
    series :=
      [("Prod", (sortRowsByMonth rows).map fun r => (r.updated_prod_used : ℚ)),
       ("Test", (sortRowsByMonth rows).map fun r => (r.updated_test_used : ℚ))]
      ++ (if envs = 3 then
            [("Dev", (sortRowsByMonth rows).map fun r => (r.updated_dev_used : ℚ))]
          else [])
      ++ [("Licenses Available",
            (sortRowsByMonth rows).map fun r => (r.updated_prod_limit : ℚ))] }

/-- src/ppt_generator.py lines 207-211: the storage-usage chart; its
only series are "Prod (GB)" and "Contracted Maximum", independent of
the environment count. -/
def storageUsageChart (rows : List AggRow) : Chart :=
  { months := (chartMonths rows).map monthLabel,
    series :=
      [("Prod (GB)", (sortRowsByMonth rows).map fun r => r.updated_prod_storage_gb),
       ("Contracted Maximum",
        (sortRowsByMonth rows).map fun r => r.updated_prod_target_storage_gb)] }

/-- src/ppt_generator.py lines 242-247: the case-trend chart. -/
def caseTrendChart (rows : List AggRow) : Chart :=
  { months := (chartMonths rows).map monthLabel,
    series :=
      [("Opened", (sortRowsByMonth rows).map fun r => (r.updated_tickets_opened : ℚ)),
       ("Closed", (sortRowsByMonth rows).map fun r => (r.updated_tickets_closed : ℚ)),
       ("Open at EOM",
        (sortRowsByMonth rows).map fun r => (r.updated_tickets_backlog : ℚ))] }

/-- Python 3 `round` to an integer: round half to even. -/
def pyRound (q : ℚ) : Int :=
  let f := ⌊q⌋
  let r := q - f
  if r < 1 / 2 then f
  else if 1 / 2 < r then f + 1
  else if f % 2 = 0 then f else f + 1

/-- Python 3 `round(x, 1)`: round half to even at one decimal. -/
def pyRound1 (q : ℚ) : ℚ := (pyRound (q * 10) : ℚ) / 10

/-- Python `int()` truncation toward zero (`safe_int` on a numeric
value that is neither `None` nor NaN). -/
def pyInt (q : ℚ) : Int := if 0 ≤ q then ⌊q⌋ else ⌈q⌉

/-- One row of the user-license table (src/ppt_generator.py lines
133-145): label, licenses, used, remaining, rounded percent used
(0 when the limit is 0). -/
def userLicenseRow (label : String) (licenses used : Int) :
    String × Int × Int × Int × Int :=
  (label, licenses, used, licenses - used,
   if licenses = 0 then 0 else pyRound ((used * 100 : ℚ) / (licenses : ℚ)))

/-- src/ppt_generator.py lines 143-153: the user-license table rows;
the "Dev" row is appended exactly when the environment count is 3. -/
def userLicenseRows (cfg : ConfigRow) (cur : AggRow) :
    List (String × Int × Int × Int × Int) :=
  [userLicenseRow "Prod" cur.updated_prod_limit cur.updated_prod_used,
   userLicenseRow "Test" cur.updated_test_limit cur.updated_test_used]
    ++ (if cfg.no_of_environments = 3 then
          [userLicenseRow "Dev" cur.updated_dev_limit cur.updated_dev_used]
        else [])

/-- One row of the storage table (src/ppt_generator.py lines 182-196):
label, used, contract, free, %used, %free (both 0 when the contract is
0), with one-decimal rounding. -/
def storageTableRow (label : String) (used contract : Int) :
    String × Int × Int × Int × ℚ × ℚ :=
  (label, used, contract, contract - used,
   if contract = 0 then 0 else pyRound1 ((used * 100 : ℚ) / (contract : ℚ)),
   if contract = 0 then 0
   else pyRound1 (((contract - used) * 100 : ℚ) / (contract : ℚ)))

/-- src/ppt_generator.py lines 194-205: the storage table rows; the
"Dev(GB)" row is appended exactly when the environment count is 3. -/
def storageTableRows (cfg : ConfigRow) (cur : AggRow) :
    List (String × Int × Int × Int × ℚ × ℚ) :=
  [storageTableRow "Prod(GB)" (pyInt cur.updated_prod_storage_gb)
     (pyInt cur.updated_prod_target_storage_gb),
   storageTableRow "Test(GB)" (pyInt cur.updated_test_storage_gb)
     (pyInt cur.updated_test_target_storage_gb)]
    ++ (if cfg.no_of_environments = 3 then
          [storageTableRow "Dev(GB)" (pyInt cur.updated_dev_storage_gb)
             (pyInt cur.updated_dev_target_storage_gb)]
        else [])

/-- C8: report assembly is deterministic (equal inputs give equal chart
blocks and an equal derived classification), the month axis is the
dedup-sorted month list (ascending) rendered through `monthLabel`, the
row stream behind every series is sorted ascending by month, and every
numeric series of the four chart blocks is that metric mapped over the
month-sorted rows. -/
theorem claim_C8_assembly_deterministic_ascending (rows : List AggRow)
    (envs : Int) (cur : AggRow) (rules : Rules) :
    (availabilityChart rows = availabilityChart rows
      ∧ userCountsChart envs rows = userCountsChart envs rows
      ∧ storageUsageChart rows = storageUsageChart rows
      ∧ caseTrendChart rows = caseTrendChart rows
      ∧ colorKeySingle (cur.updated_availability * 100) rules
        = colorKeySingle (cur.updated_availability * 100) rules)
    ∧ List.Sorted (· ≤ ·) (chartMonths rows)
    ∧ List.Sorted byMonth (sortRowsByMonth rows)
    ∧ ((availabilityChart rows).months = (chartMonths rows).map monthLabel
      ∧ (userCountsChart envs rows).months = (chartMonths rows).map monthLabel
      ∧ (storageUsageChart rows).months = (chartMonths rows).map monthLabel
      ∧ (caseTrendChart rows).months = (chartMonths rows).map monthLabel)
    ∧ (∀ name vals,
        (name, vals) ∈ (availabilityChart rows).series
            ++ (userCountsChart envs rows).series
            ++ (storageUsageChart rows).series
            ++ (caseTrendChart rows).series →
          ∃ f : AggRow → ℚ, vals = (sortRowsByMonth rows).map f) := by
  refine ⟨⟨rfl, rfl, rfl, rfl, rfl⟩, ?_, ?_, ⟨rfl, rfl, rfl, rfl⟩, ?_⟩
  · exact List.sorted_insertionSort _ _
  · exact List.sorted_insertionSort _ _
  · intro name vals hmem
    by_cases he : envs = 3
    · simp [availabilityChart, userCountsChart, storageUsageChart, caseTrendChart,
        he] at hmem
      rcases hmem with ⟨-, h⟩ | ⟨-, h⟩ | ⟨-, h⟩ | ⟨-, h⟩ | ⟨-, h⟩ | ⟨-, h⟩
        | ⟨-, h⟩ | ⟨-, h⟩ | ⟨-, h⟩ | ⟨-, h⟩ | ⟨-, h⟩ <;> exact ⟨_, h⟩
    · simp [availabilityChart, userCountsChart, storageUsageChart, caseTrendChart,
        he] at hmem
      rcases hmem with ⟨-, h⟩ | ⟨-, h⟩ | ⟨-, h⟩ | ⟨-, h⟩ | ⟨-, h⟩ | ⟨-, h⟩
        | ⟨-, h⟩ | ⟨-, h⟩ | ⟨-, h⟩ | ⟨-, h⟩ <;> exact ⟨_, h⟩

/-- Witness for C8: the "Availability" series of a concrete two-row
chart is some metric mapped over the month-sorted rows. -/
theorem claim_C8_witness :
    ∃ f : AggRow → ℚ,
      (availabilityChart [{ customer_name := "A", month_year := 2 },
          { customer_name := "A", month_year := 1 }]).series.headI.2
        = (sortRowsByMonth [{ customer_name := "A", month_year := 2 },
            { customer_name := "A", month_year := 1 }]).map f :=
  (claim_C8_assembly_deterministic_ascending
      [{ customer_name := "A", month_year := 2 },
       { customer_name := "A", month_year := 1 }] 2
      { customer_name := "A", month_year := 1 } ⟨90, 80, 70⟩).2.2.2.2
    "Availability"
    (availabilityChart [{ customer_name := "A", month_year := 2 },
      { customer_name := "A", month_year := 1 }]).series.headI.2
    (by simp [availabilityChart])

/-- C9 counterexample: with an environment count of 3, the storage
section chart still has exactly the series "Prod (GB)" and
"Contracted Maximum" — no "Dev" series — so the claim that the storage
section includes a dev chart series exactly when the environment count
equals 3 is false. -/
theorem claim_C9_counterexample :
    ({ customer_name := "A", month_year := 1, no_of_environments := 3 }
        : ConfigRow).no_of_environments = 3
      ∧ (storageUsageChart [{ customer_name := "A", month_year := 1 }]).series.map
          Prod.fst = ["Prod (GB)", "Contracted Maximum"]
      ∧ ¬ ("Dev" ∈ (storageUsageChart
            [{ customer_name := "A", month_year := 1 }]).series.map Prod.fst) := by
  refine ⟨rfl, rfl, ?_⟩
  decide

/-- C9 (amended): the third "Dev" table row and "Dev" chart series of
the license section, and the third "Dev(GB)" table row of the storage
section,
appear exactly when the environment count equals 3 (so none of them
appears when it is 2); the storage chart contains no dev series at any
environment count. -/
theorem claim_C9_dev_row_series (cfg : ConfigRow) (cur : AggRow)
    (rows : List AggRow) :
    (("Dev" ∈ (userLicenseRows cfg cur).map (fun p => p.1))
        ↔ cfg.no_of_environments = 3)
      ∧ (("Dev" ∈ (userCountsChart cfg.no_of_environments rows).series.map Prod.fst)
        ↔ cfg.no_of_environments = 3)
      ∧ (("Dev(GB)" ∈ (storageTableRows cfg cur).map (fun p => p.1))
        ↔ cfg.no_of_environments = 3)
      ∧ ("Dev" ∉ (storageUsageChart rows).series.map Prod.fst) := by
  by_cases he : cfg.no_of_environments = 3 <;>
    simp [userLicenseRows, userLicenseRow, userCountsChart, storageTableRows,
      storageTableRow, storageUsageChart, he]

/-- Witness for C9 (amended): concrete storage chart without a dev
series. -/
theorem claim_C9_witness :
    "Dev" ∉ (storageUsageChart
        [{ customer_name := "A", month_year := 1 }]).series.map Prod.fst :=
  (claim_C9_dev_row_series
    { customer_name := "A", month_year := 1, no_of_environments := 3 }
    { customer_name := "A", month_year := 1 }
    [{ customer_name := "A", month_year := 1 }]).2.2.2

end CSMReport
